import Mathlib

/-!
Verification development for the calorie-bot nutrition reconciliation
pipeline (`ai_analyzer.py` and `food_database.py`).

The Python source is shallowly embedded: Python numbers (int/float) are
modelled as exact rationals (`ℚ`); every concrete value exercised below is
exactly representable in double precision, so float arithmetic and rational
arithmetic agree on them.  Python dictionaries are modelled as
insertion-ordered association lists with update-in-place/append semantics.
Exceptions are modelled with `Except`: code paths that can raise return
`Except PyErr _`, and a `try/except` block is a `match` on that result.
External collaborators that are not part of the repository (the fuzzywuzzy
string-similarity scorer, the FatSecret network API, its credentials) are
parameters of the embedding, collected in the `Env` structure.
-/

namespace CalorieBot

/-- Python exception kinds that can escape the embedded code paths. -/
inductive PyErr where
  | typeError
  | attributeError
deriving DecidableEq

/-- Floor of a rational, computed with `Int.fdiv` so that it reduces in the kernel. -/
def ratFloor (q : ℚ) : ℤ := q.num.fdiv (q.den : ℤ)

/-- Model of Python 3 `round(x)` on exact values: round half to even (banker's rounding). -/
def pyRound (q : ℚ) : ℤ :=
  if q - ((ratFloor q : ℤ) : ℚ) < 1/2 then ratFloor q
  else if (1/2 : ℚ) < q - ((ratFloor q : ℤ) : ℚ) then ratFloor q + 1
  else if ratFloor q % 2 = 0 then ratFloor q else ratFloor q + 1

/-- Model of Python `round(x, 1)`: round to one decimal digit, half to even. -/
def pyRound1 (q : ℚ) : ℚ := (pyRound (q * 10) : ℚ) / 10

/-- Model of Python `int(x)` on a float: truncation toward zero. -/
def pyInt (q : ℚ) : ℤ := if 0 ≤ q then ratFloor q else -(ratFloor (-q))

/-- Lowercase one character; covers ASCII and the Russian alphabet, which is
all the source's tables use (model of `str.lower`). -/
def lowerChar (c : Char) : Char :=
  if 'A' ≤ c ∧ c ≤ 'Z' then Char.ofNat (c.toNat + 32)
  else if c = 'Ё' then 'ё'
  else if 'А' ≤ c ∧ c ≤ 'Я' then Char.ofNat (c.toNat + 32)
  else c

/-- Uppercase one character; covers ASCII and the Russian alphabet (model of `str.upper`). -/
def upperChar (c : Char) : Char :=
  if 'a' ≤ c ∧ c ≤ 'z' then Char.ofNat (c.toNat - 32)
  else if c = 'ё' then 'Ё'
  else if 'а' ≤ c ∧ c ≤ 'я' then Char.ofNat (c.toNat - 32)
  else c

/-- Cased letter test for the alphabets above (used by the `str.title` model). -/
def isCasedAlpha (c : Char) : Bool :=
  ('a' ≤ c ∧ c ≤ 'z') ∨ ('A' ≤ c ∧ c ≤ 'Z') ∨
  ('а' ≤ c ∧ c ≤ 'я') ∨ ('А' ≤ c ∧ c ≤ 'Я') ∨ c = 'ё' ∨ c = 'Ё'

/-- Python whitespace characters stripped by `str.strip` and `float`. -/
def isPySpace (c : Char) : Bool :=
  c = ' ' ∨ c = '\t' ∨ c = '\n' ∨ c = '\x0d' ∨ c = '\x0b' ∨ c = '\x0c'

/-- Model of `str.strip()` on a character list. -/
def pyStripChars (s : List Char) : List Char :=
  ((s.dropWhile isPySpace).reverse.dropWhile isPySpace).reverse

/-- Model of `str.lower()`. -/
def pyLowerStr (s : String) : String := (s.data.map lowerChar).asString

/-- Model of `str.strip()`. -/
def pyStripStr (s : String) : String := (pyStripChars s.data).asString

/-- Model of `str.title()`: uppercase every cased letter that follows a
non-cased character, lowercase the rest. -/
def titleChars : List Char → Bool → List Char
  | [], _ => []
  | c :: t, prevAlpha =>
    (if prevAlpha then lowerChar c else upperChar c) :: titleChars t (isCasedAlpha c)

/-- Model of `str.title()` on `String`. -/
def pyTitleStr (s : String) : String := (titleChars s.data false).asString

/-- Model of Python substring test `needle in hay`. -/
def pyContains (hay needle : String) : Bool := decide (needle.data <:+: hay.data)

/-- First index at or after `start` where `sub` occurs in `s`, or `-1`
(model of `str.find(sub, start)`; negative starts are clamped to 0). -/
def pyFindFrom (s sub : List Char) (start : ℤ) : ℤ :=
  match (List.range (s.length + 1)).find?
      (fun i => start.toNat ≤ i ∧ (List.isPrefixOf sub (s.drop i)) = true) with
  | some i => (i : ℤ)
  | none => -1

/-- Model of `str.find(sub)`. -/
def pyFind (s sub : List Char) : ℤ := pyFindFrom s sub 0

/-- Model of `str.rfind(sub)`: last index where `sub` occurs, or `-1`. -/
def pyRfind (s sub : List Char) : ℤ :=
  match ((List.range (s.length + 1)).filter
      (fun i => (List.isPrefixOf sub (s.drop i)) = true)).getLast? with
  | some i => (i : ℤ)
  | none => -1

/-- Model of the Python slice `s[a:b]` for the index shapes the parser uses
(`a ≥ 0`; out-of-range ends clamp). -/
def pySlice (s : List Char) (a b : ℤ) : List Char :=
  (s.drop a.toNat).take (b - a).toNat

/-- Numeric value of a digit run. -/
def digitsVal (l : List Char) : ℕ := l.foldl (fun a c => a * 10 + (c.toNat - 48)) 0

/-- Digit test. -/
def isDigitC (c : Char) : Bool := '0' ≤ c ∧ c ≤ '9'

/-- Model of Python `float(s)` restricted to finite decimal/scientific
literals, returning an exact rational (`none` models `ValueError`).
Special values such as `inf`/`nan` are outside the exact-rational model. -/
def pyFloat (s : List Char) : Option ℚ :=
  let s := pyStripChars s
  let (neg, s) := match s with
    | '-' :: r => (true, r)
    | '+' :: r => (false, r)
    | _ => (false, s)
  let mantChars := s.takeWhile (fun c => isDigitC c ∨ c = '.')
  let expChars := s.drop mantChars.length
  let intD := mantChars.takeWhile isDigitC
  let rest := mantChars.drop intD.length
  let fracD := match rest with
    | '.' :: r => if r.all isDigitC then some r else none
    | [] => some []
    | _ => none
  match fracD with
  | none => none
  | some fr =>
    if intD = [] ∧ fr = [] then none
    else
      let expVal : Option ℤ := match expChars with
        | [] => some 0
        | 'e' :: r | 'E' :: r =>
          let (esgn, r) := match r with
            | '-' :: r2 => ((-1 : ℤ), r2)
            | '+' :: r2 => ((1 : ℤ), r2)
            | _ => ((1 : ℤ), r)
          if r ≠ [] ∧ r.all isDigitC then some (esgn * (digitsVal r : ℤ)) else none
        | _ => none
      match expVal with
      | none => none
      | some e =>
        let base : ℚ := (digitsVal intD : ℚ) + (digitsVal fr : ℚ) / ((10 : ℚ) ^ fr.length)
        let v := base * (10 : ℚ) ^ e
        some (if neg then -v else v)

/-- Decimal representation of an integer (model of Python's `f"{…}"` for ints). -/
def intToStr (n : ℤ) : String :=
  if n < 0 then "-" ++ toString n.natAbs else toString n.natAbs

/-- Decimal representation of a rational; exact for the integer values the
pipeline actually formats. -/
def qToStr (q : ℚ) : String :=
  if q.den = 1 then intToStr q.num else intToStr q.num ++ "/" ++ toString q.den

/-- JSON values as decoded by `json.loads` (numbers as exact rationals). -/
inductive JValue where
  | null : JValue
  | jbool : Bool → JValue
  | num : ℚ → JValue
  | jstr : String → JValue
  | jarr : List JValue → JValue
  | jobj : List (String × JValue) → JValue

/-- Python dictionary with string keys: insertion-ordered association list. -/
abbrev PyDict := List (String × JValue)

/-- Model of `d.get(k, default)`. -/
def pyGet : PyDict → String → JValue → JValue
  | [], _, dflt => dflt
  | (k', v) :: t, k, dflt => if k' = k then v else pyGet t k dflt

/-- Model of `d[k] = v`: update in place if the key exists, else append. -/
def pySet : PyDict → String → JValue → PyDict
  | [], k, v => [(k, v)]
  | (k', v') :: t, k, v => if k' = k then (k, v) :: t else (k', v') :: pySet t k v

/-- Key-membership test, model of `k in d`. -/
def pyHasKey (d : PyDict) (k : String) : Bool := d.any (fun kv => kv.1 = k)

/-- Model of `d.setdefault(k, v)`. -/
def pySetdefault (d : PyDict) (k : String) (v : JValue) : PyDict :=
  if pyHasKey d k then d else d ++ [(k, v)]

/-- Numeric coercion used by Python arithmetic: numbers and booleans are
numeric, anything else raises `TypeError`. -/
def toNumE : JValue → Except PyErr ℚ
  | .num q => .ok q
  | .jbool b => .ok (if b then 1 else 0)
  | _ => .error .typeError

/-- Model of the Python comparison `v == 0` (never raises). -/
def pyEqZero : JValue → Bool
  | .num q => q = 0
  | .jbool b => b = false
  | _ => false

/-- Whitespace skipping for the JSON grammar. -/
def skipWs (s : List Char) : List Char :=
  s.dropWhile (fun c => c = ' ' ∨ c = '\t' ∨ c = '\n' ∨ c = '\x0d')

/-- JSON string body after the opening quote: returns content and remainder.
Common escapes are supported; this models the `json.loads` string grammar. -/
def jstrAux : List Char → Option (List Char × List Char)
  | [] => none
  | '"' :: r => some ([], r)
  | '\\' :: c :: r =>
    match (match c with
      | '"' => some '"'
      | '\\' => some '\\'
      | '/' => some '/'
      | 'n' => some '\n'
      | 't' => some '\t'
      | 'r' => some '\x0d'
      | 'b' => some '\x08'
      | 'f' => some '\x0c'
      | _ => none) with
    | some e =>
      match jstrAux r with
      | some (s, rest) => some (e :: s, rest)
      | none => none
    | none => none
  | c :: r =>
    match jstrAux r with
    | some (s, rest) => some (c :: s, rest)
    | none => none

/-- JSON number (integer, fraction, exponent) as an exact rational. -/
def jnum (s : List Char) : Option (ℚ × List Char) :=
  let (neg, s1) := match s with
    | '-' :: r => (true, r)
    | _ => (false, s)
  let intD := s1.takeWhile isDigitC
  if intD = [] then none
  else
    let s2 := s1.drop intD.length
    let (fracD, s3) := match s2 with
      | '.' :: r => (r.takeWhile isDigitC, (r.dropWhile isDigitC : List Char))
      | _ => (([] : List Char), s2)
    if s2 ≠ s3 ∧ fracD = [] then none
    else
      let (expOk, expV, s4) : Bool × ℤ × List Char := match s3 with
        | 'e' :: r | 'E' :: r =>
          let (esgn, r2) := match r with
            | '-' :: r3 => ((-1 : ℤ), r3)
            | '+' :: r3 => ((1 : ℤ), r3)
            | _ => ((1 : ℤ), r)
          let eD := r2.takeWhile isDigitC
          if eD = [] then (false, 0, s3)
          else (true, esgn * (digitsVal eD : ℤ), r2.drop eD.length)
        | _ => (true, 0, s3)
      if expOk then
        let base : ℚ := (digitsVal intD : ℚ) + (digitsVal fracD : ℚ) / ((10 : ℚ) ^ fracD.length)
        some ((if neg then -base else base) * (10 : ℚ) ^ expV, s4)
      else none

mutual

/-- Fueled recursive-descent JSON value parser (model of `json.loads`). -/
def jvalue : ℕ → List Char → Option (JValue × List Char)
  | 0, _ => none
  | fuel + 1, s =>
    match skipWs s with
    | '{' :: r =>
      (match skipWs r with
       | '}' :: r2 => some (.jobj [], r2)
       | _ =>
         match jmembers fuel r with
         | some (kvs, rest) =>
           some (.jobj (kvs.foldl (fun d kv => pySet d kv.1 kv.2) []), rest)
         | none => none)
    | '[' :: r =>
      (match skipWs r with
       | ']' :: r2 => some (.jarr [], r2)
       | _ =>
         match jelems fuel r with
         | some (vs, rest) => some (.jarr vs, rest)
         | none => none)
    | '"' :: r =>
      (match jstrAux r with
       | some (cs, rest) => some (.jstr cs.asString, rest)
       | none => none)
    | 't' :: 'r' :: 'u' :: 'e' :: r => some (.jbool true, r)
    | 'f' :: 'a' :: 'l' :: 's' :: 'e' :: r => some (.jbool false, r)
    | 'n' :: 'u' :: 'l' :: 'l' :: r => some (.null, r)
    | s' =>
      match jnum s' with
      | some (q, rest) => some (.num q, rest)
      | none => none
termination_by structural fuel _ => fuel

/-- Members of a JSON object after the opening brace. -/
def jmembers : ℕ → List Char → Option (List (String × JValue) × List Char)
  | 0, _ => none
  | fuel + 1, s =>
    match skipWs s with
    | '"' :: r =>
      (match jstrAux r with
       | some (k, r1) =>
         (match skipWs r1 with
          | ':' :: r2 =>
            (match jvalue fuel r2 with
             | some (v, r3) =>
               (match skipWs r3 with
                | ',' :: r4 =>
                  (match jmembers fuel r4 with
                   | some (kvs, rest) => some ((k.asString, v) :: kvs, rest)
                   | none => none)
                | '}' :: r4 => some ([(k.asString, v)], r4)
                | _ => none)
             | none => none)
          | _ => none)
       | none => none)
    | _ => none
termination_by structural fuel _ => fuel

/-- Elements of a JSON array after the opening bracket. -/
def jelems : ℕ → List Char → Option (List JValue × List Char)
  | 0, _ => none
  | fuel + 1, s =>
    match jvalue fuel s with
    | some (v, r) =>
      (match skipWs r with
       | ',' :: r2 =>
         (match jelems fuel r2 with
          | some (vs, rest) => some (v :: vs, rest)
          | none => none)
       | ']' :: r2 => some ([v], r2)
       | _ => none)
    | none => none
termination_by structural fuel _ => fuel

end

/-- Model of `json.loads`: the whole input must be one JSON value plus
whitespace; `none` models `json.JSONDecodeError`. -/
def jsonLoads (s : List Char) : Option JValue :=
  match jvalue (2 * s.length + 8) s with
  | some (v, rest) => if skipWs rest = [] then some v else none
  | none => none

/-- One extraction attempt of `_parse_ai_response`: a candidate `[start:end)`
slice is tried when `start != -1` and `end > start` (source lines 314-317). -/
def tryPattern (c : List Char) (se : ℤ × ℤ) : Option JValue :=
  if se.1 ≠ -1 ∧ se.1 < se.2 then jsonLoads (pyStripChars (pySlice c se.1 se.2)) else none

/-- JSON extraction of `_parse_ai_response` (source lines 307-323): first `{`
to last `}`, then a fenced ```json block, then any fenced block; the first
slice that parses as JSON wins. -/
def extractJson (c : List Char) : Option JValue :=
  let p1 := (pyFind c ['{'], pyRfind c ['}'] + 1)
  let j7 := pyFind c "```json".data + 7
  let p2 := (j7, pyFindFrom c "```".data j7)
  let p3 := (pyFind c "```".data + 3, pyRfind c "```".data)
  match tryPattern c p1 with
  | some v => some v
  | none =>
    match tryPattern c p2 with
    | some v => some v
    | none => tryPattern c p3

/-- Keyword list of `_create_fallback_result` (source line 387). -/
def foodKeywords : List String :=
  ["steak", "meat", "chicken", "fish", "bread", "rice", "potato", "salad", "food", "meal"]

/-- Keywords of `_create_fallback_result` found in the lowercased input. -/
def foundKeywords (content : List Char) : List String :=
  foodKeywords.filter (fun w => decide (w.data <:+: content.map lowerChar))

/-- Synthesized dish name of `_create_fallback_result` (source lines 390-395). -/
def fallbackName (content : List Char) : String :=
  if foundKeywords content ≠ [] then
    "Еда (" ++ String.intercalate ", " ((foundKeywords content).take 2) ++ ")"
  else "Блюдо (не удалось распознать)"

/-- Calorie estimate of `_create_fallback_result` (source lines 390-395). -/
def fallbackCalories (content : List Char) : ℚ :=
  if foundKeywords content ≠ [] then 400 else 350

/-- Model of `_create_fallback_result` (source lines 382-414). -/
def fallbackResult (content : List Char) : PyDict :=
  [("food_items", .jarr [.jobj
      [("name", .jstr (fallbackName content)), ("estimated_weight", .jstr "250г"),
       ("calories", .num (fallbackCalories content)),
       ("proteins", .num 20), ("carbs", .num 25), ("fats", .num 15),
       ("certainty", .jstr "low")]]),
   ("total_calories", .num (fallbackCalories content)), ("total_proteins", .num 20),
   ("total_carbs", .num 25),
   ("total_fats", .num 15), ("confidence", .num 30),
   ("error", .jstr "Использован fallback анализ"),
   ("raw_response", .jstr (content.take 300).asString)]

/-- Per-item default backfill of `_parse_ai_response` (source lines 348-354). -/
def applyItemDefaults (i : PyDict) : PyDict :=
  let i := pySetdefault i "name" (.jstr "Неизвестный продукт")
  let i := pySetdefault i "estimated_weight" (.jstr "100г")
  let i := pySetdefault i "calories" (.num 100)
  let i := pySetdefault i "proteins" (.num 5)
  let i := pySetdefault i "carbs" (.num 10)
  let i := pySetdefault i "fats" (.num 5)
  pySetdefault i "certainty" (.jstr "medium")

/-- Model of `sum(item.get(k, 0) for item in items)`: raises `TypeError`
when a value is neither number nor boolean. -/
def sumField : List JValue → String → Except PyErr ℚ
  | [], _ => .ok 0
  | x :: xs, k =>
    match toNumE (match x with
      | .jobj d => pyGet d k (.num 0)
      | _ => .num 0) with
    | .error e => .error e
    | .ok c =>
      match sumField xs k with
      | .error e => .error e
      | .ok s => .ok (c + s)

/-- Validation/backfill half of `_parse_ai_response` (source lines 330-373),
reached when the extracted JSON is a dictionary.  Only the macro sums can
raise (`TypeError` on non-numeric fields); that error is not caught by the
source's `except (json.JSONDecodeError, ValueError)` clause. -/
def parsedBase (d0 : PyDict) : PyDict :=
  pySetdefault (pySetdefault (pySetdefault d0 "food_items" (.jarr []))
    "total_calories" (.num 0)) "confidence" (.num 50)

/-- Item validation of `_parse_ai_response` (source lines 343-357): keep the
dictionary items, with defaults backfilled; drop the rest. -/
def validItemsOf (d0 : PyDict) : List JValue :=
  (match pyGet (parsedBase d0) "food_items" (.jarr []) with
   | JValue.jarr l => l
   | _ => ([] : List JValue)).filterMap (fun x : JValue =>
    match x with
    | .jobj i => some (JValue.jobj (applyItemDefaults i))
    | _ => none)

/-- The validated dictionary before the optional total recomputation
(source lines 357-366). -/
def validatedDict (d0 : PyDict) (tp tcarb tf : ℚ) : PyDict :=
  pySet (pySet (pySet (pySet (parsedBase d0) "food_items" (.jarr (validItemsOf d0)))
    "total_proteins" (.num tp)) "total_carbs" (.num tcarb)) "total_fats" (.num tf)

def validateObj (d0 : PyDict) : Except PyErr PyDict :=
  match sumField (validItemsOf d0) "proteins" with
  | .error e => .error e
  | .ok tp =>
    match sumField (validItemsOf d0) "carbs" with
    | .error e => .error e
    | .ok tcarb =>
      match sumField (validItemsOf d0) "fats" with
      | .error e => .error e
      | .ok tf =>
        if pyEqZero (pyGet (validatedDict d0 tp tcarb tf) "total_calories" (.num 0)) &&
            !(validItemsOf d0).isEmpty then
          match sumField (validItemsOf d0) "calories" with
          | .error e => .error e
          | .ok tcal => .ok (pySet (validatedDict d0 tp tcarb tf) "total_calories" (.num tcal))
        else
          .ok (validatedDict d0 tp tcarb tf)

/-- Model of `CalorieAnalyzer._parse_ai_response` (source lines 301-380).
`json.JSONDecodeError`/`ValueError` (no JSON found, JSON not a dictionary)
are caught and produce the fallback result; a `TypeError` raised by the
macro sums propagates to the caller. -/
def parseAiResponse (content : List Char) : Except PyErr PyDict :=
  match extractJson content with
  | some (.jobj d) => validateObj d
  | _ => .ok (fallbackResult content)

/-- Translation table `FOOD_TRANSLATIONS` of `ai_analyzer.py` (source lines
23-144).  The source's dict literal repeats the key `'ground meat'` with the
same value; a Python dict keeps one entry, modelled here by listing it once. -/
def FOOD_TRANSLATIONS : List (String × String) :=
  [("ham and cheese sandwiches", "бутерброды с ветчиной и сыром"),
   ("ham and cheese sandwich", "бутерброд с ветчиной и сыром"),
   ("slices of ham with cheese strips", "бутерброды с колбасой и сыром"),
   ("ham with cheese strips", "бутерброды с колбасой и сыром"),
   ("sandwiches with ham and cheese", "бутерброды с ветчиной и сыром"),
   ("cheese and ham sandwiches", "бутерброды с сыром и ветчиной"),
   ("sandwiches", "бутерброды"),
   ("sandwich pieces", "кусочки бутербродов"),
   ("ham sandwich", "бутерброд с ветчиной"),
   ("cheese sandwich", "бутерброд с сыром"),
   ("meat-filled pancakes", "блины с мясом"),
   ("pancakes with meat", "блины с мясом"),
   ("crepes with meat", "блины с мясом"),
   ("crepes", "блины"),
   ("pancakes", "блины"),
   ("meat pancakes", "блины с мясом"),
   ("stuffed pancakes", "блины с начинкой"),
   ("sliced salmon", "кусочки лосося"),
   ("salmon slices", "кусочки лосося"),
   ("fish slices", "кусочки рыбы"),
   ("sliced fish", "кусочки рыбы"),
   ("salmon", "лосось"),
   ("lightly salted fish", "рыба слабой соли"),
   ("salted fish", "соленая рыба"),
   ("smoked salmon", "копченый лосось"),
   ("cup of tea", "чашка чая"),
   ("tea cup", "чашка чая"),
   ("tea", "чай"),
   ("black tea", "черный чай"),
   ("green tea", "зеленый чай"),
   ("herbal tea", "травяной чай"),
   ("coffee", "кофе"),
   ("cup of coffee", "чашка кофе"),
   ("beef steak", "говяжий стейк"),
   ("grilled beef steak", "стейк говяжий на гриле"),
   ("fried beef steak", "жареный говяжий стейк"),
   ("pork steak", "свиной стейк"),
   ("chicken breast", "куриная грудка"),
   ("grilled chicken", "курица гриль"),
   ("fried chicken", "жареная курица"),
   ("roast beef", "ростбиф"),
   ("beef", "говядина"),
   ("pork", "свинина"),
   ("chicken", "курица"),
   ("steak", "стейк"),
   ("grilled meat", "мясо на гриле"),
   ("fried meat", "жареное мясо"),
   ("roasted meat", "запеченное мясо"),
   ("barbecue", "барбекю"),
   ("schnitzel", "шницель"),
   ("cutlet", "котлета"),
   ("meatball", "фрикаделька"),
   ("ground meat", "фарш"),
   ("bread", "хлеб"),
   ("cheese", "сыр"),
   ("meat", "мясо"),
   ("ham", "ветчина"),
   ("sausage", "колбаса"),
   ("bacon", "бекон"),
   ("casserole", "запеканка"),
   ("meat casserole", "мясная запеканка"),
   ("baked casserole", "запеченная запеканка"),
   ("layered casserole", "слоеная запеканка"),
   ("ground meat casserole", "запеканка с фаршем"),
   ("cheese casserole", "сырная запеканка"),
   ("vegetable casserole", "овощная запеканка"),
   ("layered dish", "слоеное блюдо"),
   ("multi-layer dish", "многослойное блюдо"),
   ("composite dish", "составное блюдо"),
   ("complex dish", "сложное блюдо"),
   ("quiche", "киш"),
   ("pie", "пирог"),
   ("meat pie", "мясной пирог"),
   ("savory pie", "несладкий пирог"),
   ("gratin", "гратен"),
   ("potato gratin", "картофельный гратен"),
   ("vegetable gratin", "овощной гратен"),
   ("baked cheese topping", "запеченный сыр сверху"),
   ("melted cheese topping", "расплавленная сырная корочка"),
   ("cheese topping", "сырная корочка"),
   ("melted cheese", "расплавленный сыр"),
   ("golden cheese", "золотистый сыр"),
   ("ground meat filling", "мясная начинка из фарша"),
   ("meat filling", "мясная начинка"),
   ("mixed vegetables", "овощная смесь"),
   ("meat and vegetables", "мясо с овощами"),
   ("vegetable filling", "овощная начинка"),
   ("egg filling", "яичная начинка"),
   ("cream filling", "кремовая начинка"),
   ("pastry crust", "тестовая основа"),
   ("pastry base", "основа из теста"),
   ("dough base", "тестовая база"),
   ("cream sauce", "сливочный соус"),
   ("white sauce", "белый соус"),
   ("bechamel sauce", "соус бешамель"),
   ("stuffed peppers", "фаршированные перцы"),
   ("stuffed cabbage", "голубцы"),
   ("stuffed tomatoes", "фаршированные помидоры"),
   ("stuffed zucchini", "фаршированные кабачки"),
   ("baked stuffed", "запеченное фаршированное"),
   ("oven-baked", "запеченное в духовке"),
   ("baked dish", "запеченное блюдо")]

/-- Longest-substring-match scan of `translate_food_name` (source lines
158-166): fold over the table keeping the value of the first key that is a
substring of the input and strictly longer than the best so far. -/
def bestSub (key : String) : List (String × String) → Option String × ℕ → Option String × ℕ
  | [], acc => acc
  | kv :: t, acc =>
    if pyContains key kv.1 ∧ acc.2 < kv.1.length then bestSub key t (some kv.2, kv.1.length)
    else bestSub key t acc

/-- Model of `translate_food_name` (source lines 146-172), generalised over
the table as suggested by the mapping mechanism itself: exact match on the
lowercased/trimmed input first, longest substring key otherwise, the input
unchanged when nothing matches.  `if best_match:` is Python truthiness, so a
matched empty-string value also falls through to the original name. -/
def translateWith (table : List (String × String)) (name : String) : String :=
  if name = "" then "Неизвестное блюдо"
  else
    match table.lookup (pyStripStr (pyLowerStr name)) with
    | some v => v
    | none =>
      match bestSub (pyStripStr (pyLowerStr name)) table (none, 0) with
      | (some v, _) => if v = "" then name else v
      | (none, _) => name

/-- The source's `translate_food_name`, over its own `FOOD_TRANSLATIONS` table. -/
def translate_food_name (english_name : String) : String :=
  translateWith FOOD_TRANSLATIONS english_name

/-- One curated row of `RussianFoodDatabase.RUSSIAN_FOODS`. -/
structure RusFood where
  calories_per_100g : ℚ
  typical_serving : ℚ
  category : String

/-- Curated table `RUSSIAN_FOODS` of `food_database.py` (source lines 190-262). -/
def RUSSIAN_FOODS : List (String × RusFood) :=
  [("борщ", ⟨93, 300, "soup"⟩),
   ("щи", ⟨60, 300, "soup"⟩),
   ("солянка", ⟨90, 300, "soup"⟩),
   ("харчо", ⟨85, 300, "soup"⟩),
   ("рассольник", ⟨70, 300, "soup"⟩),
   ("пельмени", ⟨197, 200, "main"⟩),
   ("вареники", ⟨220, 200, "main"⟩),
   ("мантры", ⟨250, 200, "main"⟩),
   ("хинкали", ⟨240, 180, "main"⟩),
   ("блины", ⟨267, 250, "main"⟩),
   ("оладьи", ⟨260, 120, "main"⟩),
   ("сырники", ⟨280, 300, "main"⟩),
   ("гречка", ⟨132, 200, "side"⟩),
   ("рис", ⟨116, 200, "side"⟩),
   ("овсянка", ⟨88, 200, "side"⟩),
   ("пшенная каша", ⟨90, 200, "side"⟩),
   ("компот", ⟨60, 250, "drink"⟩),
   ("морс", ⟨40, 300, "drink"⟩),
   ("квас", ⟨30, 250, "drink"⟩),
   ("кисель", ⟨80, 200, "drink"⟩),
   ("котлеты", ⟨280, 150, "main"⟩),
   ("тефтели", ⟨250, 150, "main"⟩),
   ("гуляш", ⟨180, 200, "main"⟩),
   ("плов", ⟨190, 250, "main"⟩),
   ("стейк говяжий", ⟨220, 250, "main"⟩),
   ("стейк", ⟨220, 250, "main"⟩),
   ("стейк рибай", ⟨250, 250, "main"⟩),
   ("говядина", ⟨187, 200, "main"⟩),
   ("говядина гриль", ⟨195, 200, "main"⟩),
   ("курица", ⟨165, 200, "main"⟩),
   ("курица гриль", ⟨142, 200, "main"⟩),
   ("куриная грудка", ⟨113, 150, "main"⟩),
   ("куриное филе", ⟨113, 150, "main"⟩),
   ("свинина", ⟨242, 200, "main"⟩),
   ("свинина гриль", ⟨250, 200, "main"⟩),
   ("свиная отбивная", ⟨260, 150, "main"⟩),
   ("сок", ⟨45, 250, "drink"⟩),
   ("банановые чипсы", ⟨519, 30, "snack"⟩),
   ("миндаль", ⟨579, 30, "nuts"⟩),
   ("изюм", ⟨299, 50, "snack"⟩),
   ("помидор", ⟨18, 100, "vegetable"⟩),
   ("томат", ⟨18, 100, "vegetable"⟩),
   ("сметана", ⟨202, 50, "dairy"⟩),
   ("теремок_блин", ⟨267, 250, "restaurant"⟩),
   ("теремок_борщ", ⟨93, 300, "restaurant"⟩),
   ("теремок_морс", ⟨40, 300, "restaurant"⟩),
   ("теремок_пельмени", ⟨197, 200, "restaurant"⟩),
   ("теремок_сметана", ⟨202, 50, "restaurant"⟩)]

/-- Translation dict `english_to_russian` of `RussianFoodDatabase.search_food`
(source lines 269-356).  The source repeats `'syrniki'` with the same value;
a Python dict keeps one entry, modelled by listing it once. -/
def ENGLISH_TO_RUSSIAN : List (String × String) :=
  [("borscht", "борщ"),
   ("borscht with sour cream", "борщ"),
   ("dumplings", "пельмени"),
   ("dumplings with sour cream", "пельмени"),
   ("stuffed crepe", "блины"),
   ("crepe", "блины"),
   ("blini", "блины"),
   ("pancake", "блины"),
   ("cottage cheese pancakes", "сырники"),
   ("syrniki", "сырники"),
   ("cheese pancakes", "сырники"),
   ("thick pancakes", "сырники"),
   ("golden pancakes", "сырники"),
   ("fried cottage cheese", "сырники"),
   ("cottage cheese fritters", "сырники"),
   ("buckwheat", "гречка"),
   ("rice", "рис"),
   ("oatmeal", "овсянка"),
   ("juice", "сок"),
   ("glass of juice", "сок"),
   ("compote", "компот"),
   ("morse", "морс"),
   ("kvass", "квас"),
   ("kissel", "кисель"),
   ("cutlets", "котлеты"),
   ("meatballs", "тефтели"),
   ("goulash", "гуляш"),
   ("pilaf", "плов"),
   ("steak", "стейк говяжий"),
   ("beef steak", "стейк говяжий"),
   ("grilled beef steak", "стейк говяжий"),
   ("grilled steak", "стейк говяжий"),
   ("ribeye steak", "стейк рибай"),
   ("ribeye", "стейк рибай"),
   ("sirloin steak", "стейк"),
   ("beef", "говядина"),
   ("grilled beef", "говядина"),
   ("chicken", "курица"),
   ("grilled chicken", "курица гриль"),
   ("chicken breast", "куриная грудка"),
   ("chicken fillet", "куриное филе"),
   ("pork", "свинина"),
   ("pork chop", "свиная отбивная"),
   ("grilled pork", "свинина гриль"),
   ("shchi", "щи"),
   ("solyanka", "солянка"),
   ("kharcho", "харчо"),
   ("rassolnik", "рассольник"),
   ("vareniki", "вареники"),
   ("mantry", "мантры"),
   ("khinkali", "хинкали"),
   ("oladyi", "оладьи"),
   ("dried banana chips", "банановые чипсы"),
   ("banana chips", "банановые чипсы"),
   ("almonds", "миндаль"),
   ("raisins", "изюм"),
   ("sliced tomato", "помидор"),
   ("tomato", "помидор"),
   ("tomatoes", "помидор"),
   ("sour cream", "сметана"),
   ("smetana", "сметана")]

/-- One food entry of a FatSecret `foods.search` response (external API,
keys `food_id`/`food_name`/`food_type`/`food_url`; any may be missing). -/
structure FSFood where
  food_id : Option String := none
  food_name : Option String := none
  food_type : Option String := none
  food_url : Option String := none

/-- Per-100g nutrition block of a FatSecret `food.get` response. -/
structure FSNutrition where
  calories : ℚ
  protein : ℚ
  carbs : ℚ
  fat : ℚ

/-- Detailed FatSecret `food.get` response as used by `get_nutrition_info`. -/
structure FSDetails where
  name : Option String := none
  nutrition_per_100g : Option FSNutrition := none

/-- External collaborators of the pipeline, which are not code of this
repository: the fuzzywuzzy partial-ratio scorer used by `process.extract`,
whether FatSecret credentials are configured (`FatSecretAPI.enabled`), and
the FatSecret network responses for `foods.search` and `food.get`. -/
structure Env where
  scorer : String → String → ℚ
  fsEnabled : Bool
  fsSearch : String → List FSFood
  fsDetails : Option String → Option FSDetails

/-- One search candidate: the union of the dict shapes produced by the
curated search (all fields present) and the FatSecret search (only
`id`/`name`; no `source` key when returned from inside the curated search). -/
structure Candidate where
  id : Option String := none
  name : Option String := none
  source : Option String := none
  calories_per_100g : Option ℚ := none
  typical_serving_g : Option ℚ := none
  category : Option String := none
  match_score : Option ℚ := none

/-- Ranking key of `FoodDatabaseManager.search_food` (source lines 467-473):
+1000 for the curated-database source, plus the match score when that key is
present and truthy. -/
def sortKey (c : Candidate) : ℚ :=
  (if c.source = some "russian_database" then 1000 else 0) +
  (match c.match_score with
   | some s => if s = 0 then 0 else s
   | none => 0)

/-- Model of `FatSecretAPI.search_food` (source lines 68-123): without
credentials it returns `[]` without any network call; with credentials the
response foods are truncated to `max_results = 5` and mapped to candidates
carrying only `id` and `name` (no `source`, no `match_score`).  Network
failures are caught in the source and surface as an empty response. -/
def fatsecretSearchFood (env : Env) (query : String) : List Candidate :=
  if env.fsEnabled then
    ((env.fsSearch query).take 5).map (fun f => { id := f.food_id, name := f.food_name })
  else []

/-- Exact-match candidate of `RussianFoodDatabase.search_food` (source lines
366-376). -/
def exactCandidate (q : String) (fd : RusFood) : Candidate :=
  { id := some ("ru_" ++ q), name := some (pyTitleStr q), source := some "russian_database",
    calories_per_100g := some fd.calories_per_100g,
    typical_serving_g := some fd.typical_serving,
    category := some fd.category, match_score := some 100 }

/-- Fuzzy-match candidate of `RussianFoodDatabase.search_food` (source lines
382-393); note the source string is `'russian'`, not `'russian_database'`. -/
def fuzzyCandidate (k : String) (fd : RusFood) (s : ℚ) : Candidate :=
  { id := some ("ru_" ++ k), name := some (pyTitleStr k), source := some "russian",
    calories_per_100g := some fd.calories_per_100g,
    typical_serving_g := some fd.typical_serving,
    category := some fd.category, match_score := some s }

/-- Model of `fuzzywuzzy.process.extract(query, keys, limit, scorer)`:
score every curated key with the environment's scorer and keep the
best `limit`, best first. -/
def extractTop (env : Env) (q : String) (limit : ℕ) : List (String × ℚ) :=
  (List.insertionSort (fun a b : String × ℚ => b.2 ≤ a.2)
    (RUSSIAN_FOODS.map (fun kf => (kf.1, env.scorer q kf.1)))).take limit

/-- Query after lowering/stripping and the English→Russian translation step
of `RussianFoodDatabase.search_food` (source lines 266, 358-363). -/
def russianQuery (query : String) : String :=
  match ENGLISH_TO_RUSSIAN.lookup (pyStripStr (pyLowerStr query)) with
  | some t => t
  | none => pyStripStr (pyLowerStr query)

/-- Fuzzy candidates of `RussianFoodDatabase.search_food` (source lines
378-393): scored keys at or above the 70 threshold. -/
def russianFuzzy (env : Env) (q : String) : List Candidate :=
  (extractTop env q 5).filterMap (fun ks =>
    if (70 : ℚ) ≤ ks.2 then
      (RUSSIAN_FOODS.lookup ks.1).map (fun fd => fuzzyCandidate ks.1 fd ks.2)
    else none)

/-- Model of `RussianFoodDatabase.search_food` (source lines 264-403) with
`max_results = 5`.  The boolean records whether the external FatSecret API
was actually queried over the network (which at this site happens only when
both exact and fuzzy search found nothing and credentials are configured;
the FatSecret fallback receives the untranslated query, source line 399). -/
def russianSearchFood (env : Env) (query : String) : List Candidate × Bool :=
  match RUSSIAN_FOODS.lookup (russianQuery query) with
  | some fd => ([exactCandidate (russianQuery query) fd], false)
  | none =>
    if (russianFuzzy env (russianQuery query)).isEmpty then
      (if (fatsecretSearchFood env (pyStripStr (pyLowerStr query))).isEmpty then
        russianFuzzy env (russianQuery query)
       else fatsecretSearchFood env (pyStripStr (pyLowerStr query)), env.fsEnabled)
    else (russianFuzzy env (russianQuery query), false)

/-- Model of `FoodDatabaseManager.search_food` (source lines 437-477): the
curated search first (when `prefer_russian`), then — whenever credentials are
configured, regardless of what the curated search returned — the FatSecret
search with `source` set to `'fatsecret'`; merged, sorted by `sortKey`
descending (stable, as `list.sort` is) and truncated to the top 10.  The
boolean records whether the external API was queried at either site. -/
def managerMerged (env : Env) (preferRussian : Bool) (query : String) : List Candidate :=
  (if preferRussian then (russianSearchFood env query).1 else []) ++
  (if env.fsEnabled then
    (fatsecretSearchFood env query).map (fun c => { c with source := some "fatsecret" })
   else [])

def managerSearchFood (env : Env) (preferRussian : Bool) (query : String) :
    List Candidate × Bool :=
  ((List.insertionSort (fun a b : Candidate => sortKey b ≤ sortKey a)
      (managerMerged env preferRussian query)).take 10,
   (if preferRussian then (russianSearchFood env query).2 else false) || env.fsEnabled)

/-- Typical-serving table of `FoodDatabaseManager.CORRECTION_FACTORS`
(source lines 415-423). -/
def typicalWeights : List (String × ℤ) :=
  [("борщ", 300), ("пельмени", 200), ("блины", 250), ("сырники", 300),
   ("морс", 300), ("сметана", 50), ("сок", 250)]

/-- Calorie-correction factors of `FoodDatabaseManager.CORRECTION_FACTORS`
(source lines 425-432); every configured factor is `1.0`, as is the default. -/
def calorieCorrections : List (String × ℚ) :=
  [("борщ", 1), ("пельмени", 1), ("блины", 1), ("сырники", 1), ("морс", 1), ("сметана", 1)]

/-- Model of `FoodDatabaseManager._apply_weight_correction` (source lines
533-543): use the typical serving when the estimate differs from it by more
than half of it, otherwise `int(estimated_weight)`. -/
def applyWeightCorrection (food_key : String) (w : ℚ) : ℤ :=
  match typicalWeights.lookup food_key with
  | some t => if (t : ℚ) * (1/2) < |w - (t : ℚ)| then t else pyInt w
  | none => pyInt w

/-- Model of `FoodDatabaseManager._apply_calorie_correction` (source lines
545-556): `int(calories_per_100g * corrected_weight / 100 * factor)`. -/
def applyCalorieCorrection (food_key : String) (c100 : ℚ) (cw : ℤ) : ℤ :=
  pyInt (c100 * (cw : ℚ) / 100 * ((calorieCorrections.lookup food_key).getD 1))

/-- Nutrition record returned by `FoodDatabaseManager.get_nutrition_info`:
the union of the curated-path dict (no macros) and the FatSecret-path dict
(no `match_score`, no `typical_serving_g`). -/
structure Nutrition where
  name : Option String
  source : String
  weight_g : ℚ
  calories_per_100g : ℚ
  total_calories : ℚ
  match_score : Option ℚ := none
  typical_serving_g : Option ℚ := none
  protein : Option ℚ := none
  carbs : Option ℚ := none
  fat : Option ℚ := none
  correction_applied : Bool

/-- Model of `FoodDatabaseManager.get_nutrition_info` (source lines 479-531).
Curated best match (`source == 'russian_database'`, which only the exact
match produces — fuzzy candidates carry `'russian'` and fall through to
`None`): weight correction, then `int()`-truncated calories.  FatSecret best
match with credentials: per-100g values scaled by the estimated weight, with
`round()`.  Curated candidates always carry `name` and `calories_per_100g`,
so the `getD` defaults on those fields are never exercised. -/
def getNutritionInfo (env : Env) (food_name : String) (w : ℚ) : Option Nutrition :=
  match (managerSearchFood env true food_name).1 with
  | [] => none
  | best :: _ =>
    if best.source = some "russian_database" then
      let nm := best.name.getD ""
      let key := pyLowerStr nm
      let cw := applyWeightCorrection key w
      let c100 := best.calories_per_100g.getD 0
      some { name := some nm, source := "russian_database_corrected", weight_g := (cw : ℚ),
             calories_per_100g := c100,
             total_calories := ((applyCalorieCorrection key c100 cw : ℤ) : ℚ),
             match_score := some (best.match_score.getD 0),
             typical_serving_g := best.typical_serving_g,
             correction_applied := true }
    else if best.source = some "fatsecret" ∧ env.fsEnabled then
      match env.fsDetails best.id with
      | some det =>
        match det.nutrition_per_100g with
        | some n =>
          some { name := det.name, source := "fatsecret", weight_g := w,
                 calories_per_100g := n.calories,
                 total_calories := ((pyRound (n.calories * w / 100) : ℤ) : ℚ),
                 protein := some (pyRound1 (n.protein * w / 100)),
                 carbs := some (pyRound1 (n.carbs * w / 100)),
                 fat := some (pyRound1 (n.fat * w / 100)),
                 correction_applied := false }
        | none => none
      | none => none
    else none

/-- Weight parsing of the `try` branch of `_extract_weight_from_item`
(source lines 543-546): only a string value can reach `float()` (any other
value raises at `.replace`, landing in the `except` branch); all `'г'`
characters are removed, the rest stripped and parsed as a float. -/
def tryParseWeight : JValue → Option ℚ
  | .jstr s => pyFloat (pyStripChars (s.data.filter (fun c => c ≠ 'г')))
  | _ => none

/-- Model of `CalorieAnalyzer._extract_weight_from_item` (source lines
540-551).  `try`: parse `estimated_weight` (default `'0г'`), floor at 50.
`except`: `max(50, round(calories / 2.5))` — which itself raises `TypeError`
when `calories` is not numeric, and that exception is not caught. -/
def extractWeight (d : PyDict) : Except PyErr ℚ :=
  match tryParseWeight (pyGet d "estimated_weight" (.jstr "0г")) with
  | some w => .ok (max w 50)
  | none =>
    match toNumE (pyGet d "calories" (.num 100)) with
    | .ok c => .ok (max 50 ((pyRound (c / (5/2)) : ℤ) : ℚ))
    | .error e => .error e

/-- Enhanced-item dict built on a database match (source lines 494-504). -/
def enhancedFromNutrition (d : PyDict) (n : Nutrition) : PyDict :=
  [("name", match n.name with | some s => .jstr s | none => .null),
   ("estimated_weight", .jstr (qToStr n.weight_g ++ "г")),
   ("calories", .num n.total_calories),
   ("proteins", match n.protein with | some p => .num p | none => pyGet d "proteins" (.num 0)),
   ("carbs", match n.carbs with | some p => .num p | none => pyGet d "carbs" (.num 0)),
   ("fats", match n.fat with | some p => .num p | none => pyGet d "fats" (.num 0)),
   ("source", .jstr ("📊 " ++ n.source)),
   ("match_score", .num (n.match_score.getD 0)),
   ("calories_per_100g", .num n.calories_per_100g)]

/-- One iteration of the reconciliation loop (source lines 482-514): weight
resolution (can raise), database lookup (raises `AttributeError` when the
item's name is not a string, at `query.lower()`), then either the enhanced
dict or the pass-through copy with `source` set to the AI marker.  A
non-dict item raises at `item.get`.  The boolean reports a database match. -/
def enhanceItem (env : Env) (x : JValue) : Except PyErr (PyDict × Bool) :=
  match x with
  | .jobj d =>
    match extractWeight d with
    | .error e => .error e
    | .ok w =>
      match pyGet d "name" (.jstr "") with
      | .jstr s =>
        match getNutritionInfo env s w with
        | some n => .ok (enhancedFromNutrition d n, true)
        | none => .ok (pySet d "source" (.jstr "🤖 AI анализ"), false)
      | _ => .error .attributeError
  | _ => .error .attributeError

/-- The reconciliation loop over all items: collects the enhanced items, the
running calorie total (`total += enhanced_item.get('calories', 0)`, which
raises `TypeError` on a non-numeric value) and the match count. -/
def enhanceItems (env : Env) : List JValue → Except PyErr (List PyDict × ℚ × ℕ)
  | [] => .ok ([], 0, 0)
  | x :: xs =>
    match enhanceItem env x with
    | .error e => .error e
    | .ok (e, matched) =>
      match toNumE (pyGet e "calories" (.num 0)) with
      | .error e2 => .error e2
      | .ok c =>
        match enhanceItems env xs with
        | .error e3 => .error e3
        | .ok (rest, t, m) => .ok (e :: rest, c + t, (if matched then 1 else 0) + m)

/-- Python iteration over the `food_items` value: lists iterate their
elements, strings iterate their characters, dicts iterate their keys;
anything else raises `TypeError`. -/
def itemsToList : JValue → Option (List JValue)
  | .jarr l => some l
  | .jstr s => some (s.data.map (fun c => JValue.jstr (String.singleton c)))
  | .jobj kvs => some (kvs.map (fun kv => JValue.jstr kv.1))
  | _ => none

/-- Post-loop assembly of `enhance_analysis_with_database` (source lines
517-530): copy the input, set the enhanced items, the rounded calorie total
and the counters, and boost confidence only when at least one item matched. -/
def enhBase (d : PyDict) (items : List PyDict) (total : ℚ) (m : ℕ) : PyDict :=
  pySet (pySet (pySet (pySet d "food_items" (.jarr (items.map JValue.jobj)))
      "total_calories" (.num ((pyRound total : ℤ) : ℚ)))
      "database_matches" (.num (m : ℚ)))
      "total_items" (.num (items.length : ℚ))

/-- Confidence boost of `enhance_analysis_with_database` (source lines
524-530), applied on top of `enhBase` only when at least one item matched. -/
def buildEnhanced (env : Env) (l : List JValue) (d : PyDict) : Except PyErr PyDict :=
  match enhanceItems env l with
  | .error e => .error e
  | .ok (items, total, m) =>
    if 0 < m then
      match toNumE (pyGet (enhBase d items total m) "confidence" (.num 70)) with
      | .error e => .error e
      | .ok oc =>
        .ok (pySet (enhBase d items total m) "confidence"
          (.num (min 95 (oc + min 20 ((m : ℚ) * 10)))))
    else
      .ok (enhBase d items total m)

/-- Body of the `try` block of `enhance_analysis_with_database` (source
lines 477-533); any escaping exception is reported in the result. -/
def enhanceCore (env : Env) (d : PyDict) : Except PyErr PyDict :=
  match itemsToList (pyGet d "food_items" (.jarr [])) with
  | some l => buildEnhanced env l d
  | none => .error .typeError

/-- Model of `CalorieAnalyzer.enhance_analysis_with_database` (source lines
473-538): the whole loop runs inside one `try`; on any exception the
original `ai_result` is returned unchanged (source lines 535-538). -/
def enhance (env : Env) (d : PyDict) : PyDict :=
  match enhanceCore env d with
  | .ok r => r
  | .error _ => d

/-- Confidence formula claimed by the specification:
`min(95, parsed + min(20, matches * 10))`. -/
def confFormula (p : ℚ) (m : ℕ) : ℚ := min 95 (p + min 20 ((m : ℚ) * 10))

/-- Environment with no FatSecret credentials (the repository's default
deployment: `FATSECRET_CONSUMER_KEY`/`SECRET` unset disables the API) and a
zero fuzzy scorer — faithful for the queries exercised below, whose
Latin-alphabet names share no characters with any Cyrillic curated key, so
`fuzz.partial_ratio` scores them 0. -/
def envNoFS : Env :=
  { scorer := fun _ _ => 0, fsEnabled := false, fsSearch := fun _ => [],
    fsDetails := fun _ => none }

/-- Environment with FatSecret credentials configured and a search response
containing one food — used to exhibit the manager's unconditional call to
the external API. -/
def envFS : Env :=
  { scorer := fun _ _ => 0, fsEnabled := true,
    fsSearch := fun _ => [{ food_id := some "33691", food_name := some "Borscht" }],
    fsDetails := fun _ => none }

/-- Curated candidates: produced by the `RussianFoodDatabase` table
(exact match tagged `'russian_database'`, fuzzy match tagged `'russian'`). -/
def isCurated (c : Candidate) : Prop :=
  c.source = some "russian_database" ∨ c.source = some "russian"

/-- External (FatSecret) candidates: tagged `'fatsecret'` by the manager or
carrying no `source` key when returned through the curated search's
fallback. -/
def isExternalSrc (c : Candidate) : Prop :=
  c.source = some "fatsecret" ∨ c.source = none

instance (c : Candidate) : Decidable (isCurated c) := by
  unfold isCurated
  infer_instance

instance (c : Candidate) : Decidable (isExternalSrc c) := by
  unfold isExternalSrc
  infer_instance

instance : IsTotal Candidate (fun a b => sortKey b ≤ sortKey a) :=
  ⟨fun a b => le_total (sortKey b) (sortKey a)⟩

instance : IsTrans Candidate (fun a b => sortKey b ≤ sortKey a) :=
  ⟨fun _ _ _ h1 h2 => le_trans h2 h1⟩

/-- Specification scenario input: one `борщ` item at 300 g (spec §8,
"exact curated match"). -/
def borschDict : PyDict :=
  [("food_items", .jarr [.jobj
      [("name", .jstr "борщ"), ("estimated_weight", .jstr "300г"),
       ("calories", .num 200), ("proteins", .num 5), ("carbs", .num 10), ("fats", .num 5)]]),
   ("total_calories", .num 200), ("confidence", .num 80)]

/-- Nutrition record produced by the curated lookup of `борщ` (279 kcal for
a 300 g serving). -/
def nutritionBorsch : Nutrition :=
  { name := some "Борщ", source := "russian_database_corrected", weight_g := 300,
    calories_per_100g := 93, total_calories := 279, match_score := some 100,
    typical_serving_g := some 300, correction_applied := true }

/-- Model response whose single item carries non-integer calories. -/
def c2content : String :=
  "\x7b\"food_items\": [\x7b\"name\": \"xyz\", \"calories\": 100.5\x7d], \"total_calories\": 0\x7d"

/-- Parsed result with model confidence 100 and an item no source matches. -/
def c3dict : PyDict :=
  [("food_items", .jarr [.jobj
      [("name", .jstr "xyz"), ("estimated_weight", .jstr "100г"), ("calories", .num 100)]]),
   ("total_calories", .num 100), ("confidence", .num 100)]

/-- Parsed form of `c2content` (the parse step succeeds on it). -/
def c2parsed : PyDict := (parseAiResponse c2content.data).toOption.getD []

/-- Model response whose item has a non-numeric `proteins` value. -/
def c4badContent : String := "\x7b\"food_items\": [\x7b\"proteins\": \"x\"\x7d]\x7d"

/-- Arbitrary non-JSON garbage input. -/
def garbageContent : String := "random garbage text!!!"

/-- Input with multiple nested brace blocks and no valid JSON. -/
def nestedContent : String := "see \x7b\x7ba\x7d\x7d and \x7bb\x7d here"

/-- Two-item batch whose first item has a non-string name (an internal
fault inside the reconciliation loop) and whose second item would match the
curated entry `щи` (60 kcal/100g, 300 g → 180 kcal). -/
def c9batch : PyDict :=
  [("food_items", .jarr
      [.jobj [("name", .num 5), ("calories", .num 100)],
       .jobj [("name", .jstr "щи"), ("estimated_weight", .jstr "300г"), ("calories", .num 100)]]),
   ("total_calories", .num 200), ("confidence", .num 60)]

/-- The second item of `c9batch` alone, as its own batch. -/
def c9single : PyDict :=
  [("food_items", .jarr
      [.jobj [("name", .jstr "щи"), ("estimated_weight", .jstr "300г"), ("calories", .num 100)]]),
   ("total_calories", .num 100), ("confidence", .num 60)]

/-- Batch whose `food_items` value is a number, not iterable. -/
def c9numItems : PyDict := [("food_items", .num 3)]

/-! Helper lemmas about the dictionary and numeric models. -/

theorem pyGet_pySet_same (d : PyDict) (k : String) (v dflt : JValue) :
    pyGet (pySet d k v) k dflt = v := by
  induction d with
  | nil => simp [pySet, pyGet]
  | cons kv t ih =>
    by_cases h : kv.1 = k
    · simp [pySet, pyGet, h]
    · simpa [pySet, pyGet, h] using ih

theorem pyGet_pySet_ne (d : PyDict) (k k' : String) (v dflt : JValue) (h : k ≠ k') :
    pyGet (pySet d k v) k' dflt = pyGet d k' dflt := by
  induction d with
  | nil => simp [pySet, pyGet, h]
  | cons kv t ih =>
    by_cases hk : kv.1 = k
    · simp [pySet, pyGet, hk, h, Ne.symm h]
    · by_cases hk' : kv.1 = k'
      · simp [pySet, pyGet, hk, hk', Ne.symm h]
      · simpa [pySet, pyGet, hk, hk'] using ih

theorem toNumE_error {v : JValue} {e : PyErr} (h : toNumE v = .error e) : e = .typeError := by
  cases v <;> simp [toNumE] at h <;> exact h.symm

theorem sumField_ok_or_typeError (l : List JValue) (k : String) :
    (∃ s, sumField l k = .ok s) ∨ sumField l k = .error .typeError := by
  induction l with
  | nil => exact .inl ⟨0, rfl⟩
  | cons x xs ih =>
    simp only [sumField]
    cases hx : toNumE (match x with | .jobj d => pyGet d k (.num 0) | _ => .num 0) with
    | error e => right; rw [toNumE_error hx]
    | ok c =>
      rcases ih with ⟨s, hs⟩ | hs
      · rw [hs]; exact .inl ⟨c + s, rfl⟩
      · rw [hs]; exact .inr rfl

theorem ratFloor_den_one {q : ℚ} (h : q.den = 1) : ((ratFloor q : ℤ) : ℚ) = q := by
  have h1 : ratFloor q = q.num := by
    unfold ratFloor
    rw [h]
    exact_mod_cast Int.fdiv_one q.num
  rw [h1]
  exact (Rat.den_eq_one_iff q).mp h

theorem pyRound_den_one {q : ℚ} (h : q.den = 1) : ((pyRound q : ℤ) : ℚ) = q := by
  have h2 : ((ratFloor q : ℤ) : ℚ) = q := ratFloor_den_one h
  have h3 : q - ((ratFloor q : ℤ) : ℚ) = 0 := by rw [h2]; ring
  unfold pyRound
  rw [h3, if_pos (by norm_num : (0 : ℚ) < 1/2)]
  exact h2

theorem calorieCorrections_getD (k : String) : ((calorieCorrections.lookup k).getD 1) = 1 := by
  simp only [calorieCorrections, List.lookup]
  repeat' split
  all_goals rfl

/-- Characterisation of the curated path of `get_nutrition_info`: the
returned weight is the corrected weight and the calories come from
`_apply_calorie_correction` of that weight. -/
theorem getNutritionInfo_curated (env : Env) (name : String) (w : ℚ) (info : Nutrition)
    (h : getNutritionInfo env name w = some info)
    (hs : info.source = "russian_database_corrected") :
    info.weight_g = ((applyWeightCorrection (pyLowerStr (info.name.getD "")) w : ℤ) : ℚ) ∧
    info.total_calories =
      ((applyCalorieCorrection (pyLowerStr (info.name.getD "")) info.calories_per_100g
        (applyWeightCorrection (pyLowerStr (info.name.getD "")) w) : ℤ) : ℚ) := by
  unfold getNutritionInfo at h
  repeat' split at h
  all_goals
    first
      | exact Option.noConfusion h
      | (obtain rfl := Option.some.inj h
         first
           | exact ⟨rfl, rfl⟩
           | exact absurd hs (by simp))

/-- Characterisation of the external (FatSecret) path of
`get_nutrition_info`: the weight is the estimate and the calories are
rounded from the per-100g value. -/
theorem getNutritionInfo_fatsecret (env : Env) (name : String) (w : ℚ) (info : Nutrition)
    (h : getNutritionInfo env name w = some info)
    (hs : info.source = "fatsecret") :
    info.weight_g = w ∧
    info.total_calories = ((pyRound (info.calories_per_100g * w / 100) : ℤ) : ℚ) := by
  unfold getNutritionInfo at h
  repeat' split at h
  all_goals
    first
      | exact Option.noConfusion h
      | (obtain rfl := Option.some.inj h
         first
           | exact ⟨rfl, rfl⟩
           | exact absurd hs (by simp))

/-! Lemmas about the reconciliation assembly. -/

theorem enhBase_food_items (d : PyDict) (items : List PyDict) (total : ℚ) (m : ℕ)
    (dflt : JValue) :
    pyGet (enhBase d items total m) "food_items" dflt = .jarr (items.map JValue.jobj) := by
  unfold enhBase
  rw [pyGet_pySet_ne _ _ _ _ _ (by decide), pyGet_pySet_ne _ _ _ _ _ (by decide),
    pyGet_pySet_ne _ _ _ _ _ (by decide), pyGet_pySet_same]

theorem enhBase_total_calories (d : PyDict) (items : List PyDict) (total : ℚ) (m : ℕ)
    (dflt : JValue) :
    pyGet (enhBase d items total m) "total_calories" dflt = .num ((pyRound total : ℤ) : ℚ) := by
  unfold enhBase
  rw [pyGet_pySet_ne _ _ _ _ _ (by decide), pyGet_pySet_ne _ _ _ _ _ (by decide),
    pyGet_pySet_same]

theorem enhBase_database_matches (d : PyDict) (items : List PyDict) (total : ℚ) (m : ℕ)
    (dflt : JValue) :
    pyGet (enhBase d items total m) "database_matches" dflt = .num ((m : ℕ) : ℚ) := by
  unfold enhBase
  rw [pyGet_pySet_ne _ _ _ _ _ (by decide), pyGet_pySet_same]

theorem enhBase_confidence (d : PyDict) (items : List PyDict) (total : ℚ) (m : ℕ)
    (dflt : JValue) :
    pyGet (enhBase d items total m) "confidence" dflt = pyGet d "confidence" dflt := by
  unfold enhBase
  rw [pyGet_pySet_ne _ _ _ _ _ (by decide), pyGet_pySet_ne _ _ _ _ _ (by decide),
    pyGet_pySet_ne _ _ _ _ _ (by decide), pyGet_pySet_ne _ _ _ _ _ (by decide)]

/-- The calorie total accumulated by the reconciliation loop equals the sum
of the `calories` fields of the items it returns. -/
theorem enhanceItems_sum (env : Env) :
    ∀ l items total m, enhanceItems env l = .ok (items, total, m) →
      sumField (items.map JValue.jobj) "calories" = .ok total := by
  intro l
  induction l with
  | nil =>
    intro items total m h
    simp only [enhanceItems, Except.ok.injEq, Prod.mk.injEq] at h
    obtain ⟨rfl, rfl, rfl⟩ := h
    rfl
  | cons x xs ih =>
    intro items total m h
    simp only [enhanceItems] at h
    split at h
    · exact Except.noConfusion h
    · split at h
      · exact Except.noConfusion h
      · split at h
        · exact Except.noConfusion h
        · rename_i e matched heq1 c heq2 trip rest t m' heq3
          simp only [Except.ok.injEq, Prod.mk.injEq] at h
          obtain ⟨rfl, rfl, rfl⟩ := h
          simp only [List.map_cons, sumField, heq2, ih _ _ _ heq3]

/-- Structure of every successful reconciliation result: the base dict with
the four recomputed keys, plus the confidence update only when at least one
item matched. -/
theorem enhanceCore_ok (env : Env) (d r : PyDict) (h : enhanceCore env d = .ok r) :
    ∃ l items total m,
      itemsToList (pyGet d "food_items" (.jarr [])) = some l ∧
      enhanceItems env l = .ok (items, total, m) ∧
      ((m = 0 ∧ r = enhBase d items total m) ∨
       (0 < m ∧ ∃ oc, toNumE (pyGet d "confidence" (.num 70)) = .ok oc ∧
         r = pySet (enhBase d items total m) "confidence"
               (.num (min 95 (oc + min 20 ((m : ℚ) * 10)))))) := by
  unfold enhanceCore at h
  split at h
  · rename_i l hl
    unfold buildEnhanced at h
    split at h
    · exact Except.noConfusion h
    · rename_i items total m hloop
      split at h
      · rename_i hm
        split at h
        · exact Except.noConfusion h
        · rename_i oc hoc
          obtain rfl := Except.ok.inj h
          rw [enhBase_confidence] at hoc
          exact ⟨l, items, total, m, hl, hloop, .inr ⟨hm, oc, hoc, rfl⟩⟩
      · rename_i hm
        obtain rfl := Except.ok.inj h
        exact ⟨l, items, total, m, hl, hloop,
          .inl ⟨Nat.eq_zero_of_not_pos hm, rfl⟩⟩
  · exact Except.noConfusion h

/-! Claim C1. -/

unseal Rat.mul Rat.add Rat.sub Rat.inv in
/-- C1, counterexample: the claim states `calories = round(calories_per_100g
* weight_g / 100)` for composition-sourced items, but the curated path uses
`int()` truncation: for `пельмени` (197 kcal/100g) at a resolved weight of
150 g the code returns `int(295.5) = 295` while `round(295.5) = 296`. -/
theorem c1_counterexample :
    (getNutritionInfo envNoFS "пельмени" 150).map
        (fun i => (i.weight_g, i.calories_per_100g, i.total_calories)) =
      some (150, 197, 295) ∧
    pyRound ((197 : ℚ) * 150 / 100) = 296 ∧ ((295 : ℚ) ≠ 296) :=
  ⟨rfl, by decide, by decide⟩

unseal Rat.mul Rat.add Rat.sub Rat.inv in
/-- C1 (amended): for every reconciled item sourced from the curated
composition table, calories equal the `int()`-truncation (not `round`) of
`calories_per_100g * weight_g / 100`; an item matched through the external
API uses `round`.  The `борщ` scenario (93 kcal/100g, 300 g) yields 279
kcal with a curated source label and `database_matches = 1`, and an item
with no composition match keeps the model's own calories unchanged. -/
theorem c1_amended :
    (∀ env name w info, getNutritionInfo env name w = some info →
      info.source = "russian_database_corrected" →
      info.total_calories =
        ((pyInt (info.calories_per_100g * info.weight_g / 100) : ℤ) : ℚ)) ∧
    (∀ env name w info, getNutritionInfo env name w = some info →
      info.source = "fatsecret" →
      info.total_calories =
        ((pyRound (info.calories_per_100g * info.weight_g / 100) : ℤ) : ℚ)) ∧
    (pyGet (enhance envNoFS borschDict) "database_matches" (.num 0) = .num 1 ∧
     (match pyGet (enhance envNoFS borschDict) "food_items" (.jarr []) with
      | .jarr [.jobj i] => (pyGet i "calories" (.num 0), pyGet i "source" .null)
      | _ => (.null, .null)) =
        (.num 279, .jstr "📊 russian_database_corrected")) ∧
    (∀ env d e, enhanceItem env (.jobj d) = .ok (e, false) →
      pyGet e "calories" (.num 0) = pyGet d "calories" (.num 0)) := by
  refine ⟨?_, ?_, ⟨rfl, rfl⟩, ?_⟩
  · intro env name w info h hs
    obtain ⟨hw, hc⟩ := getNutritionInfo_curated env name w info h hs
    rw [hc, hw]
    congr 1
    unfold applyCalorieCorrection
    rw [calorieCorrections_getD, mul_one]
  · intro env name w info h hs
    obtain ⟨hw, hc⟩ := getNutritionInfo_fatsecret env name w info h hs
    rw [hc, hw]
  · intro env d e h
    simp only [enhanceItem] at h
    split at h
    · exact Except.noConfusion h
    · split at h
      · split at h
        · simp only [Except.ok.injEq, Prod.mk.injEq] at h
          exact absurd h.2 (by simp)
        · simp only [Except.ok.injEq, Prod.mk.injEq] at h
          obtain ⟨rfl, -⟩ := h
          rw [pyGet_pySet_ne _ _ _ _ _ (by decide)]
      · exact Except.noConfusion h

unseal Rat.mul Rat.add Rat.sub Rat.inv in
/-- C1, witness: the amended truncation formula evaluated on the `борщ`
scenario (where truncation and rounding agree: 279). -/
theorem c1_amended_witness :
    getNutritionInfo envNoFS "борщ" 300 = some nutritionBorsch ∧
    nutritionBorsch.total_calories =
      ((pyInt (nutritionBorsch.calories_per_100g * nutritionBorsch.weight_g / 100) : ℤ) : ℚ) :=
  ⟨rfl, c1_amended.1 envNoFS "борщ" 300 nutritionBorsch rfl rfl⟩

/-! Claim C2. -/

unseal Rat.mul Rat.add Rat.sub Rat.inv in
/-- C2, counterexample: an item with calories `100.5` and no database match
yields `total_calories = round(100.5) = 100` while the sum of item calories
is `100.5`, so the exact total-consistency invariant fails. -/
theorem c2_counterexample :
    parseAiResponse c2content.data = .ok c2parsed ∧
    pyGet (enhance envNoFS c2parsed) "total_calories" (.num 0) = .num 100 ∧
    (match pyGet (enhance envNoFS c2parsed) "food_items" (.jarr []) with
     | .jarr l => sumField l "calories"
     | _ => .error .typeError) = .ok (201/2) ∧
    (100 : ℚ) ≠ 201/2 :=
  ⟨rfl, rfl, rfl, by decide⟩

/-- C2 (amended): on every successful reconciliation path,
`total_calories` equals the item-calorie sum rounded half-to-even to an
integer, and it equals the exact sum whenever that sum is an integer (the
error path returns the parsed input unchanged instead). -/
theorem c2_amended : ∀ env d r, enhanceCore env d = .ok r →
    ∃ (items : List PyDict) (total : ℚ),
      pyGet r "food_items" (.jarr []) = .jarr (items.map JValue.jobj) ∧
      sumField (items.map JValue.jobj) "calories" = .ok total ∧
      pyGet r "total_calories" (.num 0) = .num ((pyRound total : ℤ) : ℚ) ∧
      (total.den = 1 → ((pyRound total : ℤ) : ℚ) = total) := by
  intro env d r h
  obtain ⟨l, items, total, m, hl, hloop, hcase⟩ := enhanceCore_ok env d r h
  refine ⟨items, total, ?_, enhanceItems_sum env l items total m hloop, ?_,
    fun hd => pyRound_den_one hd⟩
  · rcases hcase with ⟨-, rfl⟩ | ⟨-, oc, -, rfl⟩
    · rw [enhBase_food_items]
    · rw [pyGet_pySet_ne _ _ _ _ _ (by decide), enhBase_food_items]
  · rcases hcase with ⟨-, rfl⟩ | ⟨-, oc, -, rfl⟩
    · rw [enhBase_total_calories]
    · rw [pyGet_pySet_ne _ _ _ _ _ (by decide), enhBase_total_calories]

unseal Rat.mul Rat.add Rat.sub Rat.inv in
/-- C2, witness: the amended statement evaluated on an empty batch. -/
theorem c2_amended_witness :
    enhanceCore envNoFS [("food_items", JValue.jarr [])] =
      .ok [("food_items", JValue.jarr []), ("total_calories", JValue.num 0),
           ("database_matches", JValue.num 0), ("total_items", JValue.num 0)] ∧
    ∃ (items : List PyDict) (total : ℚ),
      pyGet [("food_items", JValue.jarr []), ("total_calories", JValue.num 0),
           ("database_matches", JValue.num 0), ("total_items", JValue.num 0)]
          "food_items" (.jarr []) = .jarr (items.map JValue.jobj) ∧
      sumField (items.map JValue.jobj) "calories" = .ok total ∧
      pyGet [("food_items", JValue.jarr []), ("total_calories", JValue.num 0),
           ("database_matches", JValue.num 0), ("total_items", JValue.num 0)]
          "total_calories" (.num 0) = .num ((pyRound total : ℤ) : ℚ) ∧
      (total.den = 1 → ((pyRound total : ℤ) : ℚ) = total) :=
  ⟨rfl, c2_amended envNoFS [("food_items", JValue.jarr [])] _ rfl⟩

/-! Claim C3. -/

unseal Rat.mul Rat.add Rat.sub Rat.inv in
/-- C3, counterexample: with parsed confidence 100 (a valid model value)
and zero database matches, the code leaves the confidence at 100, while the
claimed formula `min(95, 100 + min(20, 0*10)) = 95`. -/
theorem c3_counterexample :
    pyGet (enhance envNoFS c3dict) "confidence" (.num 70) = .num 100 ∧
    pyGet (enhance envNoFS c3dict) "database_matches" (.num 0) = .num 0 ∧
    pyGet c3dict "confidence" (.num 70) = .num 100 ∧
    (100 : ℚ) ≠ min 95 (100 + min 20 ((0 : ℚ) * 10)) :=
  ⟨rfl, rfl, rfl, by norm_num⟩

/-- C3 (amended): provided the parsed confidence lies in `[0, 95]`, the
final confidence equals `min(95, parsed + min(20, matches*10))` (with zero
matches the code leaves it unchanged, which agrees with the formula in that
range); it is then at least the parsed confidence, lies in `[0, 95]`, and
is non-decreasing in the match count.  A parsed confidence above 95 is
passed through unchanged when nothing matches, not clamped. -/
theorem c3_amended : ∀ env d r p (m : ℕ),
    enhanceCore env d = .ok r →
    pyGet d "confidence" (.num 70) = .num p →
    0 ≤ p → p ≤ 95 →
    pyGet r "database_matches" (.num 0) = .num ((m : ℕ) : ℚ) →
    pyGet r "confidence" (.num 70) = .num (confFormula p m) ∧
    p ≤ confFormula p m ∧ 0 ≤ confFormula p m ∧ confFormula p m ≤ 95 ∧
    (∀ m' : ℕ, m ≤ m' → confFormula p m ≤ confFormula p m') := by
  intro env d r p m h hp h0 h95 hm
  obtain ⟨l, items, total, mm, hl, hloop, hcase⟩ := enhanceCore_ok env d r h
  have hboost : (0 : ℚ) ≤ min 20 ((m : ℚ) * 10) := le_min (by norm_num) (by positivity)
  have hple : p ≤ confFormula p m := le_min h95 (le_add_of_nonneg_right hboost)
  refine ⟨?_, hple, le_trans h0 hple, min_le_left _ _, ?_⟩
  · have hmeq : mm = m := by
      rcases hcase with ⟨-, rfl⟩ | ⟨-, oc, -, rfl⟩
      · rw [enhBase_database_matches] at hm
        exact_mod_cast JValue.num.inj hm
      · rw [pyGet_pySet_ne _ _ _ _ _ (by decide), enhBase_database_matches] at hm
        exact_mod_cast JValue.num.inj hm
    subst hmeq
    rcases hcase with ⟨hm0, rfl⟩ | ⟨hmpos, oc, hoc, rfl⟩
    · rw [enhBase_confidence, hp]
      congr 1
      unfold confFormula
      rw [hm0]
      norm_num
      exact h95
    · rw [pyGet_pySet_same]
      rw [hp] at hoc
      obtain rfl : p = oc := by simpa [toNumE] using hoc
      rfl
  · intro m' hm'
    unfold confFormula
    gcongr

unseal Rat.mul Rat.add Rat.sub Rat.inv in
/-- C3, witness: the amended statement evaluated on an empty batch with
parsed confidence 50; the formula value for zero matches is 50. -/
theorem c3_amended_witness :
    pyGet [("food_items", JValue.jarr []), ("confidence", JValue.num 50),
        ("total_calories", JValue.num 0), ("database_matches", JValue.num 0),
        ("total_items", JValue.num 0)] "confidence" (.num 70) = .num (confFormula 50 0) :=
  (c3_amended envNoFS [("food_items", JValue.jarr []), ("confidence", JValue.num 50)]
    _ 50 0 rfl rfl (by norm_num) (by norm_num) rfl).1

/-! Claim C9. -/

unseal Rat.mul Rat.add Rat.sub Rat.inv in
/-- C9, counterexample: in a two-item batch whose first item faults inside
the loop (non-string name), the whole batch is returned unreconciled — the
healthy second item (`щи` at 300 g, which reconciles to 180 kcal on its
own) keeps the model's 100 kcal and gets no source label, refuting the
claim that every other item is still reconciled normally. -/
theorem c9_counterexample :
    enhance envNoFS c9batch = c9batch ∧
    (match pyGet (enhance envNoFS c9batch) "food_items" (.jarr []) with
     | .jarr [_, .jobj i] =>
       pyGet i "calories" (.num 0) = .num 100 ∧ pyHasKey i "source" = false
     | _ => False) ∧
    (match pyGet (enhance envNoFS c9single) "food_items" (.jarr []) with
     | .jarr [.jobj i] => pyGet i "calories" (.num 0)
     | _ => .null) = .num 180 ∧
    (100 : ℚ) ≠ 180 :=
  ⟨rfl, ⟨rfl, rfl⟩, rfl, by norm_num⟩

unseal Rat.mul Rat.add Rat.sub Rat.inv in
/-- C9 (amended): error containment in reconciliation is per batch, not per
item — on any exception inside the loop the entire original parsed result is
returned unchanged (no item receives database enhancement), and only a batch
with no internal fault is reconciled. -/
theorem c9_amended :
    (∀ env d e, enhanceCore env d = .error e → enhance env d = d) ∧
    (∀ env d r, enhanceCore env d = .ok r → enhance env d = r) ∧
    ((match pyGet (enhance envNoFS c9single) "food_items" (.jarr []) with
      | .jarr [.jobj i] => (pyGet i "calories" (.num 0), pyGet i "source" .null)
      | _ => (.null, .null)) =
        (.num 180, .jstr "📊 russian_database_corrected")) := by
  refine ⟨?_, ?_, rfl⟩
  · intro env d e h
    unfold enhance
    rw [h]
  · intro env d r h
    unfold enhance
    rw [h]

unseal Rat.mul Rat.add Rat.sub Rat.inv in
/-- C9, witness: the amended whole-batch fallback applied to a batch whose
`food_items` value is not iterable. -/
theorem c9_amended_witness : enhance envNoFS c9numItems = c9numItems :=
  c9_amended.1 envNoFS c9numItems .typeError rfl

/-! Claim C6. -/

unseal Rat.mul Rat.add Rat.sub Rat.inv in
/-- C6, counterexample: an item with no portion-description field at all and
calories 500 resolves to 50 g — the absent key defaults to the parseable
string `'0г'`, which parses to 0 and is floored to 50 — not the claimed
`max(50, round(500/2.5)) = 200`. -/
theorem c6_counterexample :
    extractWeight [("calories", .num 500)] = .ok 50 ∧
    max (50 : ℚ) ((pyRound ((500 : ℚ) / (5/2)) : ℤ) : ℚ) = 200 ∧ ((50 : ℚ) ≠ 200) :=
  ⟨rfl, by decide, by decide⟩

unseal Rat.mul Rat.add Rat.sub Rat.inv in
/-- C6 (amended): for every item whose portion-description field is present
but holds no parseable numeric weight (a null, a non-string, or an
unparseable string), the resolved weight is `max(50, round(calories/2.5))` —
in particular a null description with calories 500 gives 200 g; when the
field is absent, the default string `'0г'` parses to 0 and the weight
resolves to the 50 g floor instead. -/
theorem c6_amended :
    (∀ d c, tryParseWeight (pyGet d "estimated_weight" (.jstr "0г")) = none →
      toNumE (pyGet d "calories" (.num 100)) = .ok c →
      extractWeight d = .ok (max 50 ((pyRound (c / (5/2)) : ℤ) : ℚ))) ∧
    extractWeight [("estimated_weight", .null), ("calories", .num 500)] = .ok 200 ∧
    extractWeight [("calories", .num 500)] = .ok 50 := by
  refine ⟨?_, rfl, rfl⟩
  intro d c h1 h2
  simp only [extractWeight, h1, h2]

unseal Rat.mul Rat.add Rat.sub Rat.inv in
/-- C6, witness: the amended formula on a null portion description with 500
calories, resolving to 200 g. -/
theorem c6_amended_witness :
    extractWeight [("estimated_weight", JValue.null), ("calories", JValue.num 500)] =
      .ok (max 50 ((pyRound ((500 : ℚ) / (5/2)) : ℤ) : ℚ)) :=
  c6_amended.1 [("estimated_weight", JValue.null), ("calories", JValue.num 500)] 500 rfl rfl

/-! Claim C7. -/

/-- C7, counterexample: `resolve_weight` is not total — when the weight
string is unparseable (here null) and the `calories` value is non-numeric,
the `round(calories / 2.5)` inside the `except` handler raises `TypeError`,
which nothing catches. -/
theorem c7_counterexample :
    extractWeight [("estimated_weight", .null), ("calories", .jstr "abc")] =
      .error .typeError := rfl

/-- C7 (amended): every weight `resolve_weight` returns is at least 50 g
(hence positive), and it returns on every input whose `calories` value is
numeric — including malformed or negative weight strings; it raises only
when the weight is unparseable and `calories` is non-numeric. -/
theorem c7_amended :
    (∀ d w, extractWeight d = .ok w → (50 : ℚ) ≤ w) ∧
    (∀ d c, toNumE (pyGet d "calories" (.num 100)) = .ok c →
      ∃ w, extractWeight d = .ok w) ∧
    (∀ d e, extractWeight d = .error e →
      tryParseWeight (pyGet d "estimated_weight" (.jstr "0г")) = none ∧
      toNumE (pyGet d "calories" (.num 100)) = .error .typeError) := by
  refine ⟨?_, ?_, ?_⟩
  · intro d w h
    unfold extractWeight at h
    split at h
    · obtain rfl := Except.ok.inj h
      exact le_max_right _ _
    · split at h
      · obtain rfl := Except.ok.inj h
        exact le_max_left _ _
      · exact Except.noConfusion h
  · intro d c h
    unfold extractWeight
    split
    · exact ⟨_, rfl⟩
    · simp only [h]
      exact ⟨_, rfl⟩
  · intro d e h
    unfold extractWeight at h
    split at h
    · exact Except.noConfusion h
    · rename_i hparse
      split at h
      · exact Except.noConfusion h
      · rename_i e2 hnum
        obtain rfl := Except.error.inj h
        exact ⟨hparse, by rw [hnum, toNumE_error hnum]⟩

unseal Rat.mul Rat.add Rat.sub Rat.inv in
/-- C7, witness: a negative weight string parses and is floored to 50 g, and
the amended floor bound applies to it. -/
theorem c7_amended_witness :
    extractWeight [("estimated_weight", JValue.jstr "-100г")] = .ok 50 ∧
    (50 : ℚ) ≤ 50 :=
  ⟨rfl, c7_amended.1 [("estimated_weight", JValue.jstr "-100г")] 50 rfl⟩

/-! Claim C10. -/

/-- C10: for every curated nutrition lookup whose matched food has a
configured typical serving, the returned weight is that typical serving
when the supplied estimate differs from it by more than half of it, and the
truncated estimate otherwise; the calorie computation uses that weight. -/
theorem c10_weight_correction : ∀ env name w info (t : ℤ),
    getNutritionInfo env name w = some info →
    info.source = "russian_database_corrected" →
    typicalWeights.lookup (pyLowerStr (info.name.getD "")) = some t →
    info.weight_g =
      (if (t : ℚ) * (1/2) < |w - (t : ℚ)| then ((t : ℤ) : ℚ) else ((pyInt w : ℤ) : ℚ)) ∧
    info.total_calories =
      ((pyInt (info.calories_per_100g * info.weight_g / 100) : ℤ) : ℚ) := by
  intro env name w info t h hs ht
  obtain ⟨hw, hc⟩ := getNutritionInfo_curated env name w info h hs
  constructor
  · rw [hw]
    simp only [applyWeightCorrection, ht]
    split <;> rfl
  · rw [hc, hw]
    congr 1
    unfold applyCalorieCorrection
    rw [calorieCorrections_getD, mul_one]

unseal Rat.mul Rat.add Rat.sub Rat.inv in
/-- C10, witness: a 100 g estimate for `борщ` differs from the 300 g typical
serving by 200 g > 150 g, so the corrected weight is 300 g. -/
theorem c10_witness :
    getNutritionInfo envNoFS "борщ" 100 = some nutritionBorsch ∧
    nutritionBorsch.weight_g =
      (if ((300 : ℤ) : ℚ) * (1/2) < |(100 : ℚ) - ((300 : ℤ) : ℚ)| then (((300 : ℤ) : ℤ) : ℚ)
       else ((pyInt (100 : ℚ) : ℤ) : ℚ)) :=
  ⟨rfl, (c10_weight_correction envNoFS "борщ" 100 nutritionBorsch 300 rfl rfl rfl).1⟩

/-! Claim C5. -/

theorem str_length_pos {s : String} (h : s ≠ "") : 0 < s.length := by
  cases s with
  | mk data =>
    cases data with
    | nil => exact absurd rfl h
    | cons c t => simp [String.length]

/-- Invariant of the longest-substring fold of `translate_food_name`:
either nothing beats the accumulator and the fold is the identity, or it
returns the value of a substring key of maximal length. -/
theorem bestSub_spec (key : String) :
    ∀ (l : List (String × String)) (b : Option String) (n : ℕ),
      (bestSub key l (b, n) = (b, n) ∧
        ∀ kv ∈ l, pyContains key kv.1 = true → kv.1.length ≤ n) ∨
      (∃ kv ∈ l, pyContains key kv.1 = true ∧
        bestSub key l (b, n) = (some kv.2, kv.1.length) ∧ n < kv.1.length ∧
        ∀ kv' ∈ l, pyContains key kv'.1 = true → kv'.1.length ≤ kv.1.length) := by
  intro l
  induction l with
  | nil => intro b n; exact .inl ⟨rfl, by simp⟩
  | cons kv t ih =>
    intro b n
    by_cases hc : pyContains key kv.1 = true ∧ n < kv.1.length
    · rcases ih (some kv.2) kv.1.length with ⟨heq, hbound⟩ | ⟨kv', hmem, hc', heq, hlt, hbound⟩
      · refine .inr ⟨kv, by simp, hc.1, ?_, hc.2, ?_⟩
        · simp only [bestSub, if_pos hc]
          exact heq
        · intro kv' hkv' hc''
          rcases List.mem_cons.mp hkv' with rfl | hmem'
          · exact le_refl _
          · exact hbound kv' hmem' hc''
      · refine .inr ⟨kv', by simp [hmem], hc', ?_, lt_trans hc.2 hlt, ?_⟩
        · simp only [bestSub, if_pos hc]
          exact heq
        · intro kv'' hkv'' hc''
          rcases List.mem_cons.mp hkv'' with rfl | hmem''
          · exact le_of_lt hlt
          · exact hbound kv'' hmem'' hc''
    · rcases ih b n with ⟨heq, hbound⟩ | ⟨kv', hmem, hc', heq, hlt, hbound⟩
      · refine .inl ⟨?_, ?_⟩
        · simp only [bestSub, if_neg hc]
          exact heq
        · intro kv' hkv' hcc
          rcases List.mem_cons.mp hkv' with rfl | hmem'
          · exact Nat.le_of_not_lt (fun hlt2 => hc ⟨hcc, hlt2⟩)
          · exact hbound kv' hmem' hcc
      · refine .inr ⟨kv', by simp [hmem], hc', ?_, hlt, ?_⟩
        · simp only [bestSub, if_neg hc]
          exact heq
        · intro kv'' hkv'' hcc
          rcases List.mem_cons.mp hkv'' with rfl | hmem''
          · exact le_trans (Nat.le_of_not_lt (fun hlt2 => hc ⟨hcc, hlt2⟩)) (le_of_lt hlt)
          · exact hbound kv'' hmem'' hcc

/-- C5: `normalize` returns the mapped value on an exact lowercased/trimmed
key match; otherwise, among the mapping keys occurring as substrings of the
input it returns the value of one of greatest length; with no substring key
it returns the input unchanged (stated for tables with non-empty keys and
values, which holds for the source's table and the claim's example); and the
claim's two-entry example normalizes "Ham and Cheese Sandwich" to "B". -/
theorem c5_longest_match :
    (∀ (table : List (String × String)) (name v : String), name ≠ "" →
      table.lookup (pyStripStr (pyLowerStr name)) = some v →
      translateWith table name = v) ∧
    (∀ (table : List (String × String)) (name : String), name ≠ "" →
      table.lookup (pyStripStr (pyLowerStr name)) = none →
      (∀ kv ∈ table, kv.1 ≠ "" ∧ kv.2 ≠ "") →
      ((∃ kv ∈ table, pyContains (pyStripStr (pyLowerStr name)) kv.1 = true) →
        ∃ kv ∈ table, pyContains (pyStripStr (pyLowerStr name)) kv.1 = true ∧
          translateWith table name = kv.2 ∧
          ∀ kv' ∈ table, pyContains (pyStripStr (pyLowerStr name)) kv'.1 = true →
            kv'.1.length ≤ kv.1.length) ∧
      ((¬ ∃ kv ∈ table, pyContains (pyStripStr (pyLowerStr name)) kv.1 = true) →
        translateWith table name = name)) ∧
    translateWith [("cheese", "A"), ("ham and cheese sandwich", "B")]
      "Ham and Cheese Sandwich" = "B" := by
  refine ⟨?_, ?_, rfl⟩
  · intro table name v hne hlk
    simp only [translateWith, if_neg hne, hlk]
  · intro table name hne hlk hkv
    constructor
    · rintro ⟨kv0, hmem0, hc0⟩
      rcases bestSub_spec (pyStripStr (pyLowerStr name)) table none 0 with
        ⟨heq, hbound⟩ | ⟨kv, hmem, hcm, heq, hlt, hbound⟩
      · have h1 := hbound kv0 hmem0 hc0
        have h2 := str_length_pos (hkv kv0 hmem0).1
        omega
      · refine ⟨kv, hmem, hcm, ?_, hbound⟩
        simp only [translateWith, if_neg hne, hlk, heq]
        rw [if_neg (hkv kv hmem).2]
    · intro hnone
      rcases bestSub_spec (pyStripStr (pyLowerStr name)) table none 0 with
        ⟨heq, hbound⟩ | ⟨kv, hmem, hcm, heq, hlt, hbound⟩
      · simp only [translateWith, if_neg hne, hlk, heq]
      · exact absurd ⟨kv, hmem, hcm⟩ hnone

/-- C5, witness: the exact-match branch applied to the source's own table. -/
theorem c5_witness : translate_food_name "Tea" = "чай" :=
  c5_longest_match.1 FOOD_TRANSLATIONS "Tea" "чай" (by decide) rfl

/-! Claim C4. -/

theorem sumField_error : ∀ (l : List JValue) (k : String) (e : PyErr),
    sumField l k = .error e → e = .typeError := by
  intro l k e h
  rcases sumField_ok_or_typeError l k with ⟨s, hs⟩ | hs <;> rw [hs] at h
  · exact Except.noConfusion h
  · exact (Except.error.inj h).symm

theorem validItemsOf_members (d0 : PyDict) :
    ∀ x ∈ validItemsOf d0, ∃ i, x = JValue.jobj i := by
  intro x hx
  obtain ⟨a, ha, hax⟩ := List.mem_filterMap.mp hx
  cases a <;> simp at hax
  exact ⟨_, hax.symm⟩

theorem validatedDict_food_items (d0 : PyDict) (tp tcarb tf : ℚ) (dflt : JValue) :
    pyGet (validatedDict d0 tp tcarb tf) "food_items" dflt = .jarr (validItemsOf d0) := by
  unfold validatedDict
  rw [pyGet_pySet_ne _ _ _ _ _ (by decide), pyGet_pySet_ne _ _ _ _ _ (by decide),
    pyGet_pySet_ne _ _ _ _ _ (by decide), pyGet_pySet_same]

/-- Every successful validation result carries the validated item list. -/
theorem validateObj_ok_items (d0 : PyDict) (r : PyDict) (h : validateObj d0 = .ok r) :
    pyGet r "food_items" (.jarr []) = .jarr (validItemsOf d0) := by
  unfold validateObj at h
  repeat' split at h
  all_goals first
    | exact Except.noConfusion h
    | (obtain rfl := Except.ok.inj h
       first
         | rw [validatedDict_food_items]
         | rw [pyGet_pySet_ne _ _ _ _ _ (by decide), validatedDict_food_items])

/-- The only error validation can raise is the macro-sum `TypeError`. -/
theorem validateObj_error (d0 : PyDict) (e : PyErr) (h : validateObj d0 = .error e) :
    e = .typeError := by
  unfold validateObj at h
  repeat' split at h
  all_goals first
    | exact Except.noConfusion h
    | (obtain rfl := Except.error.inj h
       rename_i heq
       exact sumField_error _ _ _ heq)

theorem fallback_valid (c : List Char) :
    ∃ l, pyGet (fallbackResult c) "food_items" (.jarr []) = .jarr l ∧
      ∀ x ∈ l, ∃ i, x = JValue.jobj i := by
  refine ⟨_, rfl, ?_⟩
  intro x hx
  rw [List.mem_singleton] at hx
  exact ⟨_, hx⟩

/-- C4 (amended): for every input string the parser either returns a
structurally valid result whose `food_items` is a (possibly empty) sequence
of records, or raises exactly the macro-sum `TypeError` of
`_parse_ai_response` — it never propagates any other failure.  The empty
string, arbitrary garbage and multi-nested-brace text all return the
keyword fallback result without raising. -/
theorem c4_amended :
    (∀ content, (∃ r, parseAiResponse content = .ok r ∧
        ∃ l, pyGet r "food_items" (.jarr []) = .jarr l ∧ ∀ x ∈ l, ∃ i, x = JValue.jobj i) ∨
      parseAiResponse content = .error .typeError) ∧
    (parseAiResponse "".data = .ok (fallbackResult "".data) ∧
      fallbackCalories "".data = 350) ∧
    parseAiResponse garbageContent.data = .ok (fallbackResult garbageContent.data) ∧
    parseAiResponse nestedContent.data = .ok (fallbackResult nestedContent.data) := by
  refine ⟨?_, ⟨rfl, rfl⟩, rfl, rfl⟩
  intro content
  unfold parseAiResponse
  cases hE : extractJson content with
  | none => exact .inl ⟨_, rfl, fallback_valid content⟩
  | some v =>
    cases v with
    | jobj d =>
      cases hv : validateObj d with
      | ok r =>
        refine .inl ⟨r, hv, validItemsOf d, ?_, validItemsOf_members d⟩
        exact validateObj_ok_items d r hv
      | error e =>
        rw [validateObj_error d e hv] at hv
        exact .inr hv
    | null => exact .inl ⟨_, rfl, fallback_valid content⟩
    | jbool b => exact .inl ⟨_, rfl, fallback_valid content⟩
    | num q => exact .inl ⟨_, rfl, fallback_valid content⟩
    | jstr s => exact .inl ⟨_, rfl, fallback_valid content⟩
    | jarr l => exact .inl ⟨_, rfl, fallback_valid content⟩

/-- C4, witness: the amended disjunction at a concrete input. -/
theorem c4_amended_witness :
    (∃ r, parseAiResponse "hi".data = .ok r ∧
      ∃ l, pyGet r "food_items" (.jarr []) = .jarr l ∧ ∀ x ∈ l, ∃ i, x = JValue.jobj i) ∨
    parseAiResponse "hi".data = .error .typeError :=
  c4_amended.1 "hi".data

/-- C4, counterexample: the parser is not no-throw on every input — a
well-formed JSON object whose item carries a non-numeric `proteins` value
reaches the uncaught macro sum and raises `TypeError`. -/
theorem c4_counterexample :
    parseAiResponse c4badContent.data = .error .typeError := rfl

/-! Claim C8. -/

/-- Every candidate shape: curated candidates rank at least 70; external
(FatSecret-shaped) candidates carry no score and rank 0. -/
def candOk (c : Candidate) : Prop :=
  (isCurated c → 70 ≤ sortKey c) ∧ (isExternalSrc c → sortKey c = 0)

theorem mem_fatsecretSearchFood (env : Env) (q : String) (c : Candidate)
    (h : c ∈ fatsecretSearchFood env q) : c.source = none ∧ c.match_score = none := by
  unfold fatsecretSearchFood at h
  split at h
  · obtain ⟨f, -, rfl⟩ := List.mem_map.mp h
    exact ⟨rfl, rfl⟩
  · exact absurd h (by simp)

theorem candOk_exact (q : String) (fd : RusFood) : candOk (exactCandidate q fd) := by
  constructor
  · intro _
    norm_num [sortKey, exactCandidate]
  · rintro (h | h) <;> simp [exactCandidate] at h

theorem candOk_fuzzy (k : String) (fd : RusFood) (s : ℚ) (hs : 70 ≤ s) :
    candOk (fuzzyCandidate k fd s) := by
  constructor
  · intro _
    have hs0 : s ≠ 0 := by intro h0; rw [h0] at hs; norm_num at hs
    have hk : sortKey (fuzzyCandidate k fd s) = 0 + (if s = 0 then (0 : ℚ) else s) := rfl
    rw [hk, if_neg hs0, zero_add]
    exact hs
  · rintro (h | h) <;> simp [fuzzyCandidate] at h

theorem candOk_fsShape (c : Candidate) (hsrc : c.source = none ∨ c.source = some "fatsecret")
    (hms : c.match_score = none) : candOk c := by
  constructor
  · rintro (h | h) <;> rcases hsrc with h2 | h2 <;> rw [h2] at h <;> simp at h
  · intro _
    rcases hsrc with h2 | h2 <;> simp [sortKey, hms, h2]

theorem mem_russianFuzzy (env : Env) (q : String) (c : Candidate)
    (h : c ∈ russianFuzzy env q) : candOk c := by
  unfold russianFuzzy at h
  obtain ⟨ks, -, hks⟩ := List.mem_filterMap.mp h
  by_cases h70 : (70 : ℚ) ≤ ks.2
  · rw [if_pos h70] at hks
    cases hfd : RUSSIAN_FOODS.lookup ks.1 with
    | none => rw [hfd] at hks; exact absurd hks (by simp)
    | some fd =>
      rw [hfd] at hks
      obtain rfl := Option.some.inj hks
      exact candOk_fuzzy ks.1 fd ks.2 h70
  · rw [if_neg h70] at hks
    exact absurd hks (by simp)

theorem mem_russianSearch (env : Env) (q : String) (c : Candidate)
    (h : c ∈ (russianSearchFood env q).1) : candOk c := by
  cases hfd : RUSSIAN_FOODS.lookup (russianQuery q) with
  | some fd =>
    simp only [russianSearchFood, hfd, List.mem_singleton] at h
    subst h
    exact candOk_exact _ _
  | none =>
    by_cases hemp : (russianFuzzy env (russianQuery q)).isEmpty
    · by_cases hfs : (fatsecretSearchFood env (pyStripStr (pyLowerStr q))).isEmpty
      · simp only [russianSearchFood, hfd, hemp, hfs, if_true] at h
        exact mem_russianFuzzy env _ c h
      · simp only [russianSearchFood, hfd, hemp, hfs, if_true, Bool.false_eq_true,
          if_false] at h
        obtain ⟨hsrc, hms⟩ := mem_fatsecretSearchFood env _ c h
        exact candOk_fsShape c (.inl hsrc) hms
    · simp only [russianSearchFood, hfd, hemp, Bool.false_eq_true, if_false] at h
      exact mem_russianFuzzy env _ c h

theorem russianSearch_snd (env : Env) (q : String) :
    ((russianSearchFood env q).2 || env.fsEnabled) = env.fsEnabled := by
  cases hfd : RUSSIAN_FOODS.lookup (russianQuery q) with
  | some fd => simp [russianSearchFood, hfd]
  | none =>
    by_cases hemp : (russianFuzzy env (russianQuery q)).isEmpty
    · simp [russianSearchFood, hfd, hemp]
    · simp [russianSearchFood, hfd, hemp]

theorem mem_managerMerged (env : Env) (pr : Bool) (q : String) (c : Candidate)
    (h : c ∈ managerMerged env pr q) : candOk c := by
  unfold managerMerged at h
  rcases List.mem_append.mp h with h1 | h1
  · split at h1
    · exact mem_russianSearch env q c h1
    · exact absurd h1 (by simp)
  · split at h1
    · obtain ⟨c0, hc0, rfl⟩ := List.mem_map.mp h1
      obtain ⟨-, hms⟩ := mem_fatsecretSearchFood env q c0 hc0
      exact candOk_fsShape _ (.inr rfl) hms
    · exact absurd h1 (by simp)

theorem managerSearch_sorted (env : Env) (pr : Bool) (q : String) :
    List.Sorted (fun a b : Candidate => sortKey b ≤ sortKey a)
      (managerSearchFood env pr q).1 :=
  List.Pairwise.sublist (List.take_sublist _ _)
    (List.sorted_insertionSort (fun a b : Candidate => sortKey b ≤ sortKey a) _)

theorem mem_managerSearch (env : Env) (pr : Bool) (q : String) (c : Candidate)
    (h : c ∈ (managerSearchFood env pr q).1) : candOk c := by
  have h1 : c ∈ List.insertionSort (fun a b : Candidate => sortKey b ≤ sortKey a)
      (managerMerged env pr q) := (List.take_sublist _ _).subset h
  have h2 : c ∈ managerMerged env pr q :=
    (List.perm_insertionSort (fun a b : Candidate => sortKey b ≤ sortKey a) _).mem_iff.mp h1
  exact mem_managerMerged env pr q c h2

theorem not_curated_and_external (c : Candidate) (h1 : isCurated c)
    (h2 : isExternalSrc c) : False := by
  rcases h1 with h1 | h1 <;> rcases h2 with h2 | h2 <;> rw [h1] at h2 <;> simp at h2

/-- C8 (amended): the external composition API is queried exactly when its
credentials are configured — the manager search queries it on every call in
that case, not only when the curated source is empty (the curated search
additionally uses it as an internal fallback when it finds nothing); in the
merged ranking every curated candidate still appears before every external
candidate (curated rank ≥ 70 via the 1000-point bonus or the ≥ 70 fuzzy
score, external rank 0 with no score), and at most 10 candidates are
returned. -/
theorem c8_amended : ∀ env pr q,
    (managerSearchFood env pr q).2 = env.fsEnabled ∧
    (managerSearchFood env pr q).1.length ≤ 10 ∧
    (∀ i j : ℕ, i < (managerSearchFood env pr q).1.length →
      j < (managerSearchFood env pr q).1.length →
      isExternalSrc ((managerSearchFood env pr q).1.getD i {}) →
      isCurated ((managerSearchFood env pr q).1.getD j {}) → j < i) := by
  intro env pr q
  refine ⟨?_, ?_, ?_⟩
  · show ((if pr then (russianSearchFood env q).2 else false) || env.fsEnabled) = env.fsEnabled
    cases pr
    · simp
    · simpa using russianSearch_snd env q
  · show ((List.insertionSort _ _).take 10).length ≤ 10
    rw [List.length_take]
    exact min_le_left _ _
  · intro i j hi hj hext hcur
    rw [List.getD_eq_getElem _ _ hi] at hext
    rw [List.getD_eq_getElem _ _ hj] at hcur
    have hoki := mem_managerSearch env pr q _ (List.getElem_mem hi)
    have hokj := mem_managerSearch env pr q _ (List.getElem_mem hj)
    have hsorted := managerSearch_sorted env pr q
    rcases Nat.lt_trichotomy j i with hji | hji | hji
    · exact hji
    · subst hji
      exact absurd (not_curated_and_external _ hcur hext) not_false
    · exfalso
      have hrel := hsorted.rel_get_of_lt (a := ⟨i, hi⟩) (b := ⟨j, hj⟩) (by exact hji)
      have h0 : sortKey ((managerSearchFood env pr q).1[i]) = 0 := hoki.2 hext
      have h70 : (70 : ℚ) ≤ sortKey ((managerSearchFood env pr q).1[j]) := hokj.1 hcur
      rw [List.get_eq_getElem, List.get_eq_getElem] at hrel
      rw [h0] at hrel
      linarith

unseal Rat.mul Rat.add Rat.sub Rat.inv in
/-- C8, counterexample: with FatSecret credentials configured, a query with
a curated exact match (`борщ`) still triggers the external API call — the
claim that the external API is queried only when the curated source yields
zero candidates is false. -/
theorem c8_counterexample :
    (managerSearchFood envFS true "борщ").2 = true ∧
    ((managerSearchFood envFS true "борщ").1.getD 0 {}).source =
      some "russian_database" ∧
    ((managerSearchFood envFS true "борщ").1.getD 1 {}).source = some "fatsecret" :=
  ⟨rfl, rfl, rfl⟩

unseal Rat.mul Rat.add Rat.sub Rat.inv in
/-- C8, witness: the amended ordering on a concrete merged result — the
curated `борщ` candidate (index 0) precedes the external candidate
(index 1), and the query flag equals the configured state. -/
theorem c8_amended_witness :
    (managerSearchFood envFS true "борщ").2 = envFS.fsEnabled ∧ (0 : ℕ) < 1 :=
  ⟨(c8_amended envFS true "борщ").1,
   (c8_amended envFS true "борщ").2.2 1 0 (by decide) (by decide) (by decide) (by decide)⟩

end CalorieBot
